import Mathlib

/-!
# Verification of `snmp.py` (virgin-media-hub3)

Shallow embedding of the SNMP attribute/translator/table layer of
`snmp.py`, together with theorems settling the specification claims.

Raw SNMP values are Python strings; we embed them as `String` and work
on their underlying character lists.  Python's `"{0:02x}".format(n)` /
`int(s, 16)` pair is embedded by `fmtHex` / `parseHex?` below.
-/

/-! ## Hexadecimal formatting and parsing (Python `format(n, '0kx')` / `int(s, 16)`) -/

/-- Lowercase hex digit character for `n < 16` (as produced by Python's `%x`). -/
def hexDigitChar (n : Nat) : Char :=
  if n < 10 then Char.ofNat (n + 48) else Char.ofNat (n + 87)

/-- Fuel-driven helper for `toHex` (structural recursion so that the kernel
    can evaluate it; `fuel > n` is always enough). -/
def toHexF : Nat → Nat → List Char
  | 0, _ => []
  | fuel + 1, n =>
    if n < 16 then [hexDigitChar n]
    else toHexF fuel (n / 16) ++ [hexDigitChar (n % 16)]

/-- Lowercase hex representation of `n`, no leading zeros (`toHex 0 = "0"`),
    as produced by Python's `"{0:x}".format(n)`. -/
def toHex (n : Nat) : List Char := toHexF (n + 1) n

theorem toHexF_irrel : ∀ f1 f2 n, n < f1 → n < f2 → toHexF f1 n = toHexF f2 n := by
  intro f1
  induction f1 with
  | zero => intro f2 n h1; omega
  | succ f1 ih =>
    intro f2 n h1 h2
    cases f2 with
    | zero => omega
    | succ f2 =>
      show (if n < 16 then _ else _) = (if n < 16 then _ else _)
      by_cases h : n < 16
      · simp [h]
      · have hd : n / 16 < n := Nat.div_lt_self (by omega) (by omega)
        simp only [h, if_false]
        rw [ih f2 (n / 16) (by omega) (by omega)]

/-- One-step unfolding of `toHex`. -/
theorem toHex_eq (n : Nat) :
    toHex n = if n < 16 then [hexDigitChar n]
              else toHex (n / 16) ++ [hexDigitChar (n % 16)] := by
  show toHexF (n + 1) n = _
  by_cases h : n < 16
  · simp [toHexF, h]
  · have hd : n / 16 < n := Nat.div_lt_self (by omega) (by omega)
    simp only [toHexF, h, if_false]
    rw [toHexF_irrel n (n / 16 + 1) (n / 16) (by omega) (by omega)]
    rfl

/-- Left-pad with `'0'` to width `w` (Python's `0`-fill in a format spec). -/
def zfill (w : Nat) (s : List Char) : List Char :=
  List.replicate (w - s.length) '0' ++ s

/-- Python `"{0:0wx}".format(n)`: lowercase hex, zero-padded to at least `w` digits. -/
def fmtHex (w n : Nat) : List Char := zfill w (toHex n)

/-- Numeric value of a hex digit character, `none` if not a hex digit. -/
def hexVal? (c : Char) : Option Nat :=
  if '0' ≤ c ∧ c ≤ '9' then some (c.toNat - 48)
  else if 'a' ≤ c ∧ c ≤ 'f' then some (c.toNat - 87)
  else if 'A' ≤ c ∧ c ≤ 'F' then some (c.toNat - 55)
  else none

/-- All characters are hex digits. -/
def allHexD : List Char → Bool
  | [] => true
  | c :: cs => (hexVal? c).isSome && allHexD cs

/-- Value of a list of hex digits (most significant first); non-digits count 0. -/
def hexValList : List Char → Nat
  | [] => 0
  | c :: cs => (hexVal? c).getD 0 * 16 ^ cs.length + hexValList cs

def parseHexAux : List Char → Nat → Option Nat
  | [], acc => some acc
  | c :: cs, acc =>
    match hexVal? c with
    | some d => parseHexAux cs (acc * 16 + d)
    | none => none

/-- Python `int(s, 16)` on a plain (unsigned, unprefixed) string:
    `none` models the `ValueError` on empty or non-hex input. -/
def parseHex? (s : List Char) : Option Nat :=
  match s with
  | [] => none
  | _ => parseHexAux s 0

theorem hexVal?_hexDigitChar : ∀ n : Nat, n < 16 → hexVal? (hexDigitChar n) = some n := by
  decide

theorem parseHexAux_eq (s : List Char) :
    ∀ acc, parseHexAux s acc =
      if allHexD s then some (acc * 16 ^ s.length + hexValList s) else none := by
  induction s with
  | nil => intro acc; simp [parseHexAux, allHexD, hexValList]
  | cons c cs ih =>
    intro acc
    cases h : hexVal? c with
    | none => simp [parseHexAux, allHexD, h]
    | some d =>
      simp only [parseHexAux, h, allHexD, hexValList, Option.isSome_some, Bool.true_and, ih,
        Option.getD_some, List.length_cons]
      by_cases hcs : allHexD cs = true
      · simp only [hcs, if_true]
        congr 1
        ring
      · simp [hcs]

theorem parseHex?_eq (s : List Char) :
    parseHex? s = if s ≠ [] ∧ allHexD s then some (hexValList s) else none := by
  cases s with
  | nil => simp [parseHex?]
  | cons c cs =>
    show parseHexAux (c :: cs) 0 = _
    rw [parseHexAux_eq]
    simp

theorem allHexD_append (a b : List Char) :
    allHexD (a ++ b) = (allHexD a && allHexD b) := by
  induction a with
  | nil => simp [allHexD]
  | cons c cs ih => simp [allHexD, ih, Bool.and_assoc]

theorem hexValList_append (a b : List Char) :
    hexValList (a ++ b) = hexValList a * 16 ^ b.length + hexValList b := by
  induction a with
  | nil => simp [hexValList]
  | cons c cs ih =>
    rw [List.cons_append]
    show (hexVal? c).getD 0 * 16 ^ (cs ++ b).length + hexValList (cs ++ b) = _
    rw [ih, List.length_append, pow_add]
    show _ = ((hexVal? c).getD 0 * 16 ^ cs.length + hexValList cs) * 16 ^ b.length + hexValList b
    ring

theorem toHex_ne_nil (n : Nat) : toHex n ≠ [] := by
  rw [toHex_eq]
  split <;> simp

theorem allHexD_toHex (n : Nat) : allHexD (toHex n) = true := by
  induction n using Nat.strong_induction_on with
  | _ n ih =>
    rw [toHex_eq]
    split
    · next h => simp [allHexD, hexVal?_hexDigitChar n h]
    · next h =>
      rw [allHexD_append]
      have h1 := ih (n / 16) (Nat.div_lt_self (by omega) (by omega))
      have h2 : hexVal? (hexDigitChar (n % 16)) = some (n % 16) :=
        hexVal?_hexDigitChar _ (Nat.mod_lt _ (by omega))
      simp [h1, allHexD, h2]

theorem hexValList_toHex (n : Nat) : hexValList (toHex n) = n := by
  induction n using Nat.strong_induction_on with
  | _ n ih =>
    rw [toHex_eq]
    split
    · next h => simp [hexValList, hexVal?_hexDigitChar n h]
    · next h =>
      rw [hexValList_append]
      have h1 := ih (n / 16) (Nat.div_lt_self (by omega) (by omega))
      have h2 : hexVal? (hexDigitChar (n % 16)) = some (n % 16) :=
        hexVal?_hexDigitChar _ (Nat.mod_lt _ (by omega))
      simp only [hexValList, h2, Option.getD_some, List.length_singleton, List.length_nil,
        pow_one, pow_zero, mul_one, h1]
      omega

theorem allHexD_replicate_zero (k : Nat) : allHexD (List.replicate k '0') = true := by
  induction k with
  | zero => rfl
  | succ k ih => simpa [List.replicate_succ, allHexD, hexVal?] using ih

theorem hexValList_replicate_zero (k : Nat) : hexValList (List.replicate k '0') = 0 := by
  induction k with
  | zero => rfl
  | succ k ih => simp [List.replicate_succ, hexValList, hexVal?, ih]

theorem hexValList_fmtHex (w n : Nat) : hexValList (fmtHex w n) = n := by
  rw [fmtHex, zfill, hexValList_append, hexValList_replicate_zero, hexValList_toHex]
  simp

theorem allHexD_fmtHex (w n : Nat) : allHexD (fmtHex w n) = true := by
  rw [fmtHex, zfill, allHexD_append, allHexD_replicate_zero, allHexD_toHex]
  rfl

theorem fmtHex_ne_nil (w n : Nat) : fmtHex w n ≠ [] := by
  rw [fmtHex, zfill]
  intro h
  have := toHex_ne_nil n
  rcases List.append_eq_nil.mp h with ⟨_, h2⟩
  exact this h2

theorem toHex_length_le (k : Nat) : ∀ n, n < 16 ^ k → (toHex n).length ≤ max 1 k := by
  induction k with
  | zero =>
    intro n hn
    interval_cases n
    decide
  | succ k ih =>
    intro n hn
    rw [toHex_eq]
    split
    · simp
    · next h =>
      have h1 : n / 16 < 16 ^ k := by
        rw [Nat.div_lt_iff_lt_mul (by omega)]
        calc n < 16 ^ (k + 1) := hn
        _ = 16 ^ k * 16 := by ring
      have h2 := ih (n / 16) h1
      have hk : 1 ≤ k := by
        by_contra hk0
        have : k = 0 := by omega
        subst this
        simp at h1
        omega
      simp only [List.length_append, List.length_singleton]
      omega

theorem toHex_length_ge (k : Nat) : ∀ n, 16 ^ k ≤ n → k + 1 ≤ (toHex n).length := by
  induction k with
  | zero => intro n _; rw [toHex_eq]; split <;> simp
  | succ k ih =>
    intro n hn
    rw [toHex_eq]
    have h16 : 16 ≤ n := by
      calc 16 = 16 ^ 1 := by ring
      _ ≤ 16 ^ (k + 1) := Nat.pow_le_pow_right (by omega) (by omega)
      _ ≤ n := hn
    split
    · omega
    · have h1 : 16 ^ k ≤ n / 16 := by
        rw [Nat.le_div_iff_mul_le (by omega)]
        calc 16 ^ k * 16 = 16 ^ (k + 1) := by ring
        _ ≤ n := hn
      have h2 := ih (n / 16) h1
      simp only [List.length_append, List.length_singleton]
      omega

theorem fmtHex_length (w n : Nat) (hw : 1 ≤ w) (hn : n < 16 ^ w) :
    (fmtHex w n).length = w := by
  have h := toHex_length_le w n hn
  rw [fmtHex, zfill]
  simp only [List.length_append, List.length_replicate]
  omega

theorem fmtHex_length_exact (w k n : Nat) (h1 : 16 ^ (k - 1) ≤ n) (h2 : n < 16 ^ k)
    (hk : 1 ≤ k) (hw : w ≤ k) : (fmtHex w n).length = k := by
  have hle := toHex_length_le k n h2
  have hge := toHex_length_ge (k - 1) n h1
  rw [fmtHex, zfill]
  simp only [List.length_append, List.length_replicate]
  omega

/-- If every character is `'0'` then the hex value is zero. -/
theorem hexValList_all_zero (s : List Char) (h : ∀ c ∈ s, c = '0') : hexValList s = 0 := by
  induction s with
  | nil => rfl
  | cons c cs ih =>
    have hc : c = '0' := h c (by simp)
    subst hc
    simp only [hexValList, ih (fun c hc => h c (by simp [hc]))]
    simp [hexVal?]

/-! ## Big-endian word splitting (netaddr's `IPAddress.words`) -/

/-- Split `n` into `c` base-`M` digits, most significant first
    (the `words` property of a netaddr address: octets for IPv4 with
    `M = 256, c = 4`, hextets for IPv6 with `M = 65536, c = 8`). -/
def chunksBE (M : Nat) : Nat → Nat → List Nat
  | 0, _ => []
  | c + 1, n => chunksBE M c (n / M) ++ [n % M]

/-- Reassemble base-`M` digits, most significant first. -/
def valBE (M : Nat) (ws : List Nat) : Nat :=
  ws.foldl (fun a w => a * M + w) 0

theorem valBE_foldl_shift (M : Nat) (ws : List Nat) :
    ∀ a, ws.foldl (fun x w => x * M + w) a = a * M ^ ws.length + valBE M ws := by
  induction ws with
  | nil => intro a; simp [valBE]
  | cons w ws ih =>
    intro a
    show ws.foldl _ (a * M + w) = _
    rw [ih (a * M + w)]
    have hw : valBE M (w :: ws) = w * M ^ ws.length + valBE M ws := by
      show ws.foldl _ (0 * M + w) = _
      rw [ih (0 * M + w)]
      ring_nf
    rw [hw]
    simp only [List.length_cons, pow_succ]
    ring

theorem valBE_cons (M w : Nat) (ws : List Nat) :
    valBE M (w :: ws) = w * M ^ ws.length + valBE M ws := by
  show ws.foldl _ (0 * M + w) = _
  rw [valBE_foldl_shift M ws (0 * M + w)]
  ring_nf

theorem valBE_append_single (M y : Nat) (ws : List Nat) :
    valBE M (ws ++ [y]) = valBE M ws * M + y := by
  show (ws ++ [y]).foldl _ 0 = _
  rw [List.foldl_append]
  rfl

theorem chunksBE_length (M : Nat) : ∀ c n, (chunksBE M c n).length = c := by
  intro c
  induction c with
  | zero => intro n; rfl
  | succ c ih => intro n; simp [chunksBE, ih]

theorem chunksBE_lt (M : Nat) (hM : 0 < M) :
    ∀ c n, ∀ w ∈ chunksBE M c n, w < M := by
  intro c
  induction c with
  | zero => intro n w hw; simp [chunksBE] at hw
  | succ c ih =>
    intro n w hw
    simp only [chunksBE, List.mem_append, List.mem_singleton] at hw
    rcases hw with hw | hw
    · exact ih (n / M) w hw
    · subst hw; exact Nat.mod_lt _ hM

theorem valBE_chunksBE (M : Nat) (hM : 0 < M) :
    ∀ c n, n < M ^ c → valBE M (chunksBE M c n) = n := by
  intro c
  induction c with
  | zero =>
    intro n hn
    simp only [pow_zero, Nat.lt_one_iff] at hn
    simp [chunksBE, valBE, hn]
  | succ c ih =>
    intro n hn
    have h1 : n / M < M ^ c := by
      rw [Nat.div_lt_iff_lt_mul hM]
      calc n < M ^ (c + 1) := hn
      _ = M ^ c * M := by ring
    rw [chunksBE, valBE_append_single, ih (n / M) h1, Nat.mul_comm]
    exact Nat.div_add_mod n M

theorem chunksBE_zero_mem (M : Nat) : ∀ c, 0 < c → 0 ∈ chunksBE M c 0 := by
  intro c _
  cases c with
  | zero => omega
  | succ c =>
    simp only [chunksBE, List.mem_append, List.mem_singleton]
    right
    simp

/-! ## Hex-formatting a list of words (`''.join("{0:02x}".format(w) for w in words)`) -/

def hexJoin : List Nat → List Char
  | [] => []
  | w :: ws => fmtHex 2 w ++ hexJoin ws

theorem allHexD_hexJoin (ws : List Nat) : allHexD (hexJoin ws) = true := by
  induction ws with
  | nil => rfl
  | cons w ws ih =>
    rw [hexJoin, allHexD_append, allHexD_fmtHex, ih]
    rfl

/-- If every word formats to exactly `j` hex digits, the join has length `j * count`
    and re-parses to the big-endian value of the words. -/
theorem hexJoin_spec (j : Nat) (ws : List Nat)
    (h : ∀ w ∈ ws, (fmtHex 2 w).length = j) :
    (hexJoin ws).length = j * ws.length ∧
    hexValList (hexJoin ws) = valBE (16 ^ j) ws := by
  induction ws with
  | nil => simp [hexJoin, hexValList, valBE]
  | cons w ws ih =>
    have hw : (fmtHex 2 w).length = j := h w (by simp)
    obtain ⟨ihl, ihv⟩ := ih (fun w hw => h w (by simp [hw]))
    constructor
    · rw [hexJoin, List.length_append, hw, ihl, List.length_cons]
      ring
    · rw [hexJoin, hexValList_append, hexValList_fmtHex, ihl, ihv, valBE_cons]
      rw [← pow_mul]

/-! ## Python-level values and exceptions -/

deriving instance DecidableEq for Except

/-- The Python exceptions raised by `snmp.py` (message text approximates the
    source's `format`/`%` interpolation). -/
inductive PyErr where
  | valueError (msg : String)
  | typeError (msg : String)
  | attributeError (msg : String)
  | keyError (msg : String)
  | notImplementedError (msg : String)
  deriving DecidableEq, Repr

/-- `RowStatus` enum members (SNMPv2 row status, lines 527-557). -/
inductive RowStatusE where
  | ACTIVE | NOT_IN_USE | NOT_READY | CREATE_AND_GO | CREATE_AND_WAIT | DESTROY
  deriving DecidableEq, Repr

/-- The declared wire value of each `RowStatus` member. -/
def RowStatusE.value : RowStatusE → String
  | .ACTIVE => "1"
  | .NOT_IN_USE => "2"
  | .NOT_READY => "3"
  | .CREATE_AND_GO => "4"
  | .CREATE_AND_WAIT => "5"
  | .DESTROY => "6"

def RowStatusE.name : RowStatusE → String
  | .ACTIVE => "ACTIVE"
  | .NOT_IN_USE => "NOT_IN_USE"
  | .NOT_READY => "NOT_READY"
  | .CREATE_AND_GO => "CREATE_AND_GO"
  | .CREATE_AND_WAIT => "CREATE_AND_WAIT"
  | .DESTROY => "DESTROY"

/-- Python `RowStatus(x)`: look a member up by value. -/
def RowStatusE.ofValue? (s : String) : Option RowStatusE :=
  [RowStatusE.ACTIVE, .NOT_IN_USE, .NOT_READY, .CREATE_AND_GO,
   .CREATE_AND_WAIT, .DESTROY].find? (fun r => r.value == s)

/-- Python `RowStatus[x]`: look a member up by name. -/
def RowStatusE.ofName? (s : String) : Option RowStatusE :=
  [RowStatusE.ACTIVE, .NOT_IN_USE, .NOT_READY, .CREATE_AND_GO,
   .CREATE_AND_WAIT, .DESTROY].find? (fun r => r.name == s)

/-- Semantic (Python-side) values flowing through translators.  `ip v n` is a
    `netaddr.IPAddress` of version `v` with integer value `n`; `mac` a
    `netaddr.EUI`; `date` a `datetime.datetime` (second resolution); `err`
    an exception *object* used as a value (as `IPAddressTranslator.pyvalue`
    returns one). -/
inductive PyValue where
  | none
  | int (n : Int)
  | str (s : String)
  | bool (b : Bool)
  | ip (version : Nat) (v : Nat)
  | mac (v : Nat)
  | date (year month day hour minute second : Nat)
  | rowStatus (r : RowStatusE)
  | err (e : PyErr)
  deriving DecidableEq, Repr

/-- Python truthiness of the embedded values. -/
def pyTruthy : PyValue → Bool
  | .none => false
  | .int n => n != 0
  | .str s => s != ""
  | .bool b => b
  | _ => true

/-- Python `str()` of the embedded values (approximate for objects). -/
def pyStr : PyValue → String
  | .none => "None"
  | .int n => toString n
  | .str s => s
  | .bool b => if b then "True" else "False"
  | .rowStatus r => "RowStatus." ++ r.name
  | .ip _ _ => "<IPAddress>"
  | .mac _ => "<EUI>"
  | .date _ _ _ _ _ _ => "<datetime>"
  | .err _ => "<exception>"

/-- Python `str()` of an optional raw value (`str(None) = "None"`), as used
    by the read-back comparison in `RawAttribute._write`. -/
def pystrOpt : Option String → String
  | Option.none => "None"
  | some s => s

/-! ## Decimal parsing (Python `int(s)` on plain strings) -/

def digVal? (c : Char) : Option Nat :=
  if '0' ≤ c ∧ c ≤ '9' then some (c.toNat - 48) else none

def parseDecAux : List Char → Nat → Option Nat
  | [], acc => some acc
  | c :: cs, acc =>
    match digVal? c with
    | some d => parseDecAux cs (acc * 10 + d)
    | none => none

def parseDec? (s : List Char) : Option Nat :=
  match s with
  | [] => none
  | _ => parseDecAux s 0

/-- Python `int(s)` (base 10, optional sign; whitespace/underscores not modelled). -/
def pyInt? (s : List Char) : Option Int :=
  match s with
  | '-' :: rest => (parseDec? rest).map (fun n => -(n : Int))
  | '+' :: rest => (parseDec? rest).map (fun n => (n : Int))
  | l => (parseDec? l).map (fun n => (n : Int))

/-- Python `int(x)` applied to an embedded value (`int()` of a netaddr
    address/EUI yields its integer value). -/
def pyIntOf : PyValue → Except PyErr Int
  | .int n => .ok n
  | .bool b => .ok (if b then 1 else 0)
  | .str s =>
    match pyInt? s.data with
    | some n => .ok n
    | Option.none => .error (.valueError ("invalid literal for int() with base 10: '" ++ s ++ "'"))
  | .ip _ n => .ok n
  | .mac n => .ok n
  | _ => .error (.typeError "int() argument must be a string or a number")

/-! ## DataType and the Translator interface -/

/-- SNMP data types (lines 30-38). -/
inductive DataType where
  | INT | PORT | STRING
  deriving DecidableEq, Repr

/-- A translator, as consumed by `Attribute`/`Table`: its `snmp_datatype`
    and the two conversion functions.  `pyvalue` takes an `Option String`
    because `Attribute.__get__` can hand it Python `None`. -/
structure TranslatorT where
  snmp_datatype : DataType
  snmp : PyValue → Except PyErr String
  pyvalue : Option String → Except PyErr PyValue

/-! ## NullTranslator (lines 175-189) -/

def NullTranslator.snmp (v : PyValue) : Except PyErr String :=
  match v with
  | .none => .ok ""
  | _ => .ok (pyStr v)

def NullTranslator.pyvalue (v : Option String) : Except PyErr PyValue :=
  match v with
  | Option.none => .ok .none
  | some s => if s = "" then .ok .none else .ok (.str s)

def NullTranslatorT : TranslatorT :=
  ⟨DataType.STRING, NullTranslator.snmp, NullTranslator.pyvalue⟩

/-! ## BoolTranslator (lines 215-229) -/

def BoolTranslator.snmp (v : PyValue) : Except PyErr String :=
  match v with
  | .str s => if (s.data.map Char.toLower) = "false".data then .ok "2"
              else .ok (if pyTruthy (.str s) then "1" else "2")
  | _ => .ok (if pyTruthy v then "1" else "2")

def BoolTranslator.pyvalue (v : Option String) : Except PyErr PyValue :=
  match v with
  | Option.none => .error (.valueError "This could not have come from SNMP...")
  | some s => .ok (.bool (s = "1"))

def BoolTranslatorT : TranslatorT :=
  ⟨DataType.INT, BoolTranslator.snmp, BoolTranslator.pyvalue⟩

/-! ## IntTranslator / PortTranslator (lines 247-302) -/

def IntTranslator.snmp (v : PyValue) : Except PyErr String :=
  match v with
  | .none => .ok ""
  | _ =>
    match pyIntOf v with
    | .ok n => .ok (toString n)
    | .error e => .error e

def IntTranslator.pyvalue (v : Option String) : Except PyErr PyValue :=
  match v with
  | Option.none => .error (.valueError "This could not have come from SNMP...")
  | some s =>
    if s = "" then .ok .none
    else
      match pyInt? s.data with
      | some n => .ok (.int n)
      | Option.none =>
        .error (.valueError ("invalid literal for int() with base 10: '" ++ s ++ "'"))

def IntTranslatorT : TranslatorT :=
  ⟨DataType.INT, IntTranslator.snmp, IntTranslator.pyvalue⟩

/-- `PortTranslator` shares `IntTranslator`'s conversions; only the datatype differs. -/
def PortTranslatorT : TranslatorT :=
  ⟨DataType.PORT, IntTranslator.snmp, IntTranslator.pyvalue⟩

/-! ## MacAddressTranslator (lines 304-337) -/

def MacAddressTranslator.pyvalue (v : Option String) : Except PyErr PyValue :=
  match v with
  | Option.none => .ok .none
  | some s =>
    if s = "" ∨ s = "$000000000000" then .ok .none
    else if ¬ (s.data.head? = some '$' ∧ s.data.length = 13) then
      .error (.valueError ("'" ++ s ++ "' is not a sensible SNMP Mac Address"))
    else
      -- netaddr.EUI(s[1:]) on 12 characters: parses as 12 hex digits
      match parseHex? (s.data.drop 1) with
      | some n => .ok (.mac n)
      | Option.none => .error (.valueError ("failed to detect EUI version: " ++ s))

def MacAddressTranslator.snmp (v : PyValue) : Except PyErr String :=
  match v with
  | .none => .ok "$000000000000"
  | _ =>
    match pyIntOf v with
    | .ok n =>
      if n < 0 then .error (.valueError "Sign not allowed in string format specifier")
      else .ok ⟨'$' :: fmtHex 12 n.toNat⟩
    | .error e => .error e

def MacAddressTranslatorT : TranslatorT :=
  ⟨DataType.STRING, MacAddressTranslator.snmp, MacAddressTranslator.pyvalue⟩

/-! ## IPv4Translator (lines 339-377) -/

/-- Dotted-quad parse, for `netaddr.IPAddress(s, 4)` on a plain string. -/
def parseDottedQuad? (s : String) : Option Nat :=
  match (s.data.splitOn '.').map parseDec? with
  | [some a, some b, some c, some d] =>
    if a < 256 ∧ b < 256 ∧ c < 256 ∧ d < 256 then
      some (a * 16777216 + b * 65536 + c * 256 + d)
    else none
  | _ => none

/-- `netaddr.IPAddress(x, 4)` for the argument shapes `snmp.py` can produce. -/
def netaddrIPv4? (v : PyValue) : Except PyErr Nat :=
  match v with
  | .int n => if 0 ≤ n ∧ n < 4294967296 then .ok n.toNat
              else .error (.valueError "address out of range for IPv4")
  | .str s =>
    match parseDottedQuad? s with
    | some n => .ok n
    | Option.none => .error (.valueError ("failed to detect a valid IP address from " ++ s))
  | _ => .error (.valueError "failed to detect a valid IP address")

def IPv4Translator.snmp (v : PyValue) : Except PyErr String :=
  match v with
  | .none => .ok "$00000000"
  | .ip ver n =>
    if ver ≠ 4 then .error (.valueError "value is not an IPv4 address")
    else .ok ⟨'$' :: hexJoin (chunksBE 256 4 n)⟩
  | _ =>
    match netaddrIPv4? v with
    | .ok n => .ok ⟨'$' :: hexJoin (chunksBE 256 4 n)⟩
    | .error e => .error e

def IPv4Translator.pyvalue (v : Option String) : Except PyErr PyValue :=
  match v with
  | Option.none => .error (.attributeError "'NoneType' object has no attribute 'startswith'")
  | some s =>
    if s = "" then .ok .none
    else if ¬ (s.data.head? = some '$' ∧ s.data.length = 9) then
      .error (.valueError ("Value '" ++ s ++ "' is not an SNMP IPv4Address"))
    else if (s.data.drop 1) ≠ [] ∧ (∀ c ∈ s.data.drop 1, c = '0') then .ok .none
    else
      match parseHex? (s.data.drop 1) with
      | some n => .ok (.ip 4 n)
      | Option.none =>
        .error (.valueError ("invalid literal for int() with base 16: '" ++ s ++ "'"))

def IPv4TranslatorT : TranslatorT :=
  ⟨DataType.STRING, IPv4Translator.snmp, IPv4Translator.pyvalue⟩

/-! ## IPv6Translator (lines 379-424) -/

def IPv6Translator.snmp (v : PyValue) : Except PyErr String :=
  match v with
  | .none => .ok "$00000000000000000000000000000000"
  | .ip ver n =>
    if ver ≠ 6 then .error (.valueError "value is not an IPv6 address")
    else .ok ⟨'$' :: hexJoin (chunksBE 65536 8 n)⟩
  | .int n =>
    -- netaddr.IPAddress(n, 6)
    if 0 ≤ n ∧ n < 2 ^ 128 then .ok ⟨'$' :: hexJoin (chunksBE 65536 8 n.toNat)⟩
    else .error (.valueError "address out of range for IPv6")
  | _ => .error (.valueError "failed to detect a valid IP address")

def IPv6Translator.pyvalue (v : Option String) : Except PyErr PyValue :=
  match v with
  | Option.none => .error (.attributeError "'NoneType' object has no attribute 'startswith'")
  | some s =>
    if s = "" then .ok .none
    else if ¬ (s.data.head? = some '$' ∧ 8 < s.data.length ∧ s.data.length ≤ 33) then
      .error (.valueError ("Value '" ++ s ++ "' is not an SNMP IPv6Address"))
    else if (s.data.drop 1) ≠ [] ∧ (∀ c ∈ s.data.drop 1, c = '0') then .ok .none
    else
      match parseHex? (s.data.drop 1) with
      | some n =>
        -- netaddr.IPAddress(n, 6); its version is always 6, so the final
        -- `res.version != 6` check in the source never fires
        if n < 2 ^ 128 then .ok (.ip 6 n)
        else .error (.valueError "address out of range for IPv6")
      | Option.none =>
        .error (.valueError ("invalid literal for int() with base 16: '" ++ s ++ "'"))

def IPv6TranslatorT : TranslatorT :=
  ⟨DataType.STRING, IPv6Translator.snmp, IPv6Translator.pyvalue⟩

/-! ## IPAddressTranslator (lines 426-474) -/

def IPAddressTranslator.snmp (v : PyValue) : Except PyErr String :=
  match v with
  | .none => .ok "$00000000"
  | .ip ver n =>
    if ver = 4 then IPv4Translator.snmp (.ip ver n) else IPv6Translator.snmp (.ip ver n)
  | .int n =>
    -- netaddr.IPAddress(n): version 4 when it fits in 32 bits, else 6
    if 0 ≤ n ∧ n < 4294967296 then IPv4Translator.snmp (.ip 4 n.toNat)
    else if 0 ≤ n ∧ n < 2 ^ 128 then IPv6Translator.snmp (.ip 6 n.toNat)
    else .error (.valueError "address out of range")
  | .str s =>
    match parseDottedQuad? s with
    | some n => IPv4Translator.snmp (.ip 4 n)
    | Option.none => .error (.valueError ("failed to detect a valid IP address from " ++ s))
  | _ => .error (.valueError "failed to detect a valid IP address")

def IPAddressTranslator.pyvalue (v : Option String) : Except PyErr PyValue :=
  match v with
  | Option.none => .error (.attributeError "'NoneType' object has no attribute 'startswith'")
  | some s =>
    if s = "" then .ok .none
    else if ¬ (s.data.head? = some '$' ∧ 9 ≤ s.data.length) then
      -- NOTE: the source *returns* this ValueError instead of raising it
      .ok (.err (.valueError (s ++ " is not an SNMP representation of an IP address!?")))
    else if s.data.length = 9 then IPv4Translator.pyvalue (some s)
    else IPv6Translator.pyvalue (some s)

def IPAddressTranslatorT : TranslatorT :=
  ⟨DataType.STRING, IPAddressTranslator.snmp, IPAddressTranslator.pyvalue⟩

/-! ## DateTimeTranslator (lines 476-525) -/

def isLeapYear (y : Nat) : Bool := (y % 4 = 0 ∧ y % 100 ≠ 0) ∨ y % 400 = 0

def daysInMonth (y m : Nat) : Nat :=
  if m = 2 then (if isLeapYear y then 29 else 28)
  else if m = 4 ∨ m = 6 ∨ m = 9 ∨ m = 11 then 30
  else 31

/-- Python `datetime.datetime(y, mo, d, h, mi, s)` with its range validation. -/
def datetimeMk (y mo d h mi s : Nat) : Except PyErr PyValue :=
  if 1 ≤ y ∧ y ≤ 9999 ∧ 1 ≤ mo ∧ mo ≤ 12 ∧ 1 ≤ d ∧ d ≤ daysInMonth y mo
     ∧ h ≤ 23 ∧ mi ≤ 59 ∧ s ≤ 59
  then .ok (.date y mo d h mi s)
  else .error (.valueError "datetime argument out of range")

/-- Python `int(l, 16)` raising `ValueError` on failure. -/
def pintHex (l : List Char) : Except PyErr Nat :=
  match parseHex? l with
  | some n => .ok n
  | Option.none => .error (.valueError "invalid literal for int() with base 16")

/-- Body of `DateTimeTranslator.pyvalue` for an actual string argument. -/
def DateTimeTranslator.pyvalueS (s : String) : Except PyErr PyValue :=
  if s = "" ∨ s = "$0000000000000000" then .ok .none
  else
      match pintHex ((s.data.drop 1).take 4) with
      | .error e => .error e
      | .ok year =>
      match pintHex ((s.data.drop 5).take 2) with
      | .error e => .error e
      | .ok month =>
      match pintHex ((s.data.drop 7).take 2) with
      | .error e => .error e
      | .ok dom =>
      match pintHex ((s.data.drop 9).take 2) with
      | .error e => .error e
      | .ok hour =>
      match pintHex ((s.data.drop 11).take 2) with
      | .error e => .error e
      | .ok minute =>
      match pintHex ((s.data.drop 13).take 2) with
      | .error e => .error e
      | .ok second => datetimeMk year month dom hour minute second

def DateTimeTranslator.pyvalue (v : Option String) : Except PyErr PyValue :=
  match v with
  | Option.none => .ok .none
  | some s => DateTimeTranslator.pyvalueS s

def DateTimeTranslator.snmp (v : PyValue) : Except PyErr String :=
  if ¬ pyTruthy v then .ok "$0000000000000000"
  else
    match v with
    | .date y mo d h mi s =>
      .ok ⟨'$' :: (fmtHex 4 y ++ (fmtHex 2 mo ++ (fmtHex 2 d ++ (fmtHex 2 h
                   ++ (fmtHex 2 mi ++ (fmtHex 2 s ++ ['0', '0']))))))⟩
    | _ => .error (.typeError "DateTimeTranslator.snmp takes a datetime.datetime arg")

def DateTimeTranslatorT : TranslatorT :=
  ⟨DataType.STRING, DateTimeTranslator.snmp, DateTimeTranslator.pyvalue⟩

/-! ## EnumTranslator instance for RowStatus (lines 191-213, 559) -/

def RowStatusTranslator.snmp (v : PyValue) : Except PyErr String :=
  match v with
  | .rowStatus r => .ok r.value
  | _ =>
    match RowStatusE.ofName? (pyStr v) with
    | some r => .ok r.value
    | Option.none => .error (.keyError (pyStr v))

def RowStatusTranslator.pyvalue (v : Option String) : Except PyErr PyValue :=
  match v with
  | some s =>
    match RowStatusE.ofValue? s with
    | some r => .ok (.rowStatus r)
    | Option.none => .error (.valueError ("'" ++ s ++ "' is not a valid RowStatus"))
  | Option.none => .error (.valueError "None is not a valid RowStatus")

def RowStatusTranslatorT : TranslatorT :=
  ⟨DataType.INT, RowStatusTranslator.snmp, RowStatusTranslator.pyvalue⟩

/-! ## Attribute status, transport and the RawAttribute state machine (lines 67-156) -/

/-- `AttributeStatus` (lines 67-78).  In the source `UNSET = 2` and
    `NEEDS_WRITE = 2`, so Python's `enum` makes `NEEDS_WRITE` an *alias* of
    the member `UNSET`; the embedding reflects that with a definition. -/
inductive AttributeStatus where
  | OK | UNSET | NEEDS_READ
  deriving DecidableEq, Repr

/-- `AttributeStatus.NEEDS_WRITE` is the same enum member as `UNSET`. -/
def AttributeStatus.NEEDS_WRITE : AttributeStatus := AttributeStatus.UNSET

/-- The transport (`instance` given to attributes; it forwards `snmp_get`
    / `snmp_set` / `snmp_walk`).  `getFn oid` is the raw string a
    `snmp_get(oid)` returns; set calls are recorded as operations. -/
structure Transport where
  getFn : String → String
  walkFn : String → List (String × String)

/-- Transport operations, in issue order. -/
inductive TOp where
  | get (oid : String)
  | set (oid : String) (value : Option String) (datatype : DataType)
  | walk (oid : String)
  deriving DecidableEq, Repr

/-- The mutable state of a `RawAttribute`. -/
structure RawAttribute where
  oid : String
  datatype : DataType
  status : AttributeStatus
  value : Option String
  readback_after_write : Bool
  deriving Repr

/-- `RawAttribute._write` (lines 136-149, also bound to `__set__`): issue the
    set, optionally read back and verify, and only then cache value/status.
    Returns (result, post-state, transport operations); on error the
    post-state equals the input state, as the Python raise happens before
    any mutation. -/
def RawAttribute.write (t : Transport) (a : RawAttribute) (v : Option String) :
    Except PyErr Unit × RawAttribute × List TOp :=
  let setOp := TOp.set a.oid v a.datatype
  if a.readback_after_write then
    let rb := t.getFn a.oid
    if rb ≠ pystrOpt v then
      (.error (.valueError ("hub did not accept a value of '" ++ pystrOpt v ++ "' for "
                            ++ a.oid ++ ": It read back as '" ++ rb ++ "'!?")),
       a, [setOp, TOp.get a.oid])
    else (.ok (), { a with value := v, status := .OK }, [setOp, TOp.get a.oid])
  else (.ok (), { a with value := v, status := .OK }, [setOp])

/-- `RawAttribute.reread` (lines 124-127). -/
def RawAttribute.reread (t : Transport) (a : RawAttribute) : RawAttribute :=
  { a with value := some (t.getFn a.oid), status := .OK }

/-- `RawAttribute.__get__` (lines 129-134). -/
def RawAttribute.get (t : Transport) (a : RawAttribute) :
    Except PyErr (Option String) × RawAttribute × List TOp :=
  match a.status with
  | .NEEDS_READ =>
    let a' := RawAttribute.reread t a
    (.ok a'.value, a', [TOp.get a.oid])
  | .UNSET => (.error (.attributeError ("OID '" ++ a.oid ++ "' has not yet been set")), a, [])
  | .OK => (.ok a.value, a, [])

/-- `RawAttribute.__delete__` (lines 151-152). -/
def RawAttribute.delete (a : RawAttribute) : Except PyErr Unit :=
  .error (.notImplementedError "Deleting SNMP values do not make sense")

/-- `RawAttribute.__init__` (lines 94-112).  `t?` is the `instance`
    parameter (`none` = Python `None`); with status `NEEDS_WRITE`(=`UNSET`)
    and no instance it raises `TypeError`, otherwise it immediately performs
    the write. -/
def RawAttribute.init (t? : Option Transport) (oid : String) (datatype : DataType)
    (status : AttributeStatus) (value : Option String) (readback : Bool) :
    Except PyErr RawAttribute × List TOp :=
  let a : RawAttribute := ⟨oid, datatype, status, value, readback⟩
  match status with
  | .UNSET =>
    match t? with
    | Option.none =>
      (.error (.typeError "When creating attributes with NEEDS_WRITE, instance value is mandatory"),
       [])
    | some t =>
      match RawAttribute.write t a value with
      | (.ok _, a', ops) => (.ok a', ops)
      | (.error e, _, ops) => (.error e, ops)
  | _ => (.ok a, [])

/-! ## Attribute: translated attribute (lines 561-619) -/

structure Attribute where
  raw : RawAttribute
  translator : TranslatorT

/-- `Attribute.__init__` (lines 570-609): for `NEEDS_READ` no value is
    passed down; otherwise the value is translated with `translator.snmp`
    first. -/
def Attribute.init (t? : Option Transport) (oid : String) (translator : TranslatorT)
    (value : PyValue) (status : AttributeStatus) (readback : Bool) :
    Except PyErr Attribute × List TOp :=
  if status = .NEEDS_READ then
    match RawAttribute.init t? oid translator.snmp_datatype status Option.none readback with
    | (.ok r, ops) => (.ok ⟨r, translator⟩, ops)
    | (.error e, ops) => (.error e, ops)
  else
    match translator.snmp value with
    | .error e => (.error e, [])
    | .ok raw =>
      match RawAttribute.init t? oid translator.snmp_datatype status (some raw) readback with
      | (.ok r, ops) => (.ok ⟨r, translator⟩, ops)
      | (.error e, ops) => (.error e, ops)

/-- `Attribute.__get__` (lines 611-612). -/
def Attribute.get (t : Transport) (a : Attribute) :
    Except PyErr PyValue × Attribute × List TOp :=
  match RawAttribute.get t a.raw with
  | (.ok v, r', ops) =>
    match a.translator.pyvalue v with
    | .ok pv => (.ok pv, ⟨r', a.translator⟩, ops)
    | .error e => (.error e, ⟨r', a.translator⟩, ops)
  | (.error e, r', ops) => (.error e, ⟨r', a.translator⟩, ops)

/-- `Attribute.__set__` (lines 614-615). -/
def Attribute.set (t : Transport) (a : Attribute) (v : PyValue) :
    Except PyErr Unit × Attribute × List TOp :=
  match a.translator.snmp v with
  | .error e => (.error e, a, [])
  | .ok raw =>
    match RawAttribute.write t a.raw (some raw) with
    | (res, r', ops) => (res, ⟨r', a.translator⟩, ops)

/-! ## Insertion-ordered dicts (Python `dict` as association lists) -/

/-- Python `d[k] = v`: update in place if the key exists, else append. -/
def dictSet {α : Type} : List (String × α) → String → α → List (String × α)
  | [], k, v => [(k, v)]
  | (k', v') :: rest, k, v =>
    if k' = k then (k, v) :: rest else (k', v') :: dictSet rest k v

/-- Python `d.get(k)` / `d[k]`. -/
def dictGet? {α : Type} (l : List (String × α)) (k : String) : Option α :=
  (l.find? (fun p => p.1 == k)).map (fun p => p.2)

/-- Python `k in d`. -/
def dictContains {α : Type} (l : List (String × α)) (k : String) : Bool :=
  l.any (fun p => p.1 == k)

/-- Python `del d[k]`. -/
def dictRemove {α : Type} (l : List (String × α)) (k : String) : List (String × α) :=
  l.filter (fun p => p.1 ≠ k)

/-! ## OID string splitting (Python `str.split('.')` / `'.'.join`) -/

/-- Python `str.split(sep)` on a character list (`splitCh '.' [] = [[]]`,
    exactly as `"".split('.') == ['']`). -/
def splitCh (sep : Char) : List Char → List (List Char)
  | [] => [[]]
  | c :: cs =>
    match splitCh sep cs with
    | [] => [[]]
    | h :: t => if c = sep then [] :: h :: t else (c :: h) :: t

/-- Python `sep.join(parts)`. -/
def joinCh (sep : Char) : List (List Char) → List Char
  | [] => []
  | [p] => p
  | p :: ps => p ++ sep :: joinCh sep ps

/-! ## parse_table (lines 679-696) -/

/-- `column_id(oid)` (lines 683-684): slice off `len(table_oid) + 1`
    characters *by position* and take the first dot-separated segment.  No
    check that `oid` actually starts with `table_oid`. -/
def column_id (table_oid oid : String) : String :=
  ⟨(splitCh '.' (oid.data.drop (table_oid.data.length + 1))).headD []⟩

/-- `row_id(oid)` (lines 686-687): the remaining segments re-joined with `'.'`. -/
def row_id (table_oid oid : String) : String :=
  ⟨joinCh '.' ((splitCh '.' (oid.data.drop (table_oid.data.length + 1))).drop 1)⟩

/-- `parse_table` (lines 679-696): group the walk result into
    row-id → (column-id → raw value), in insertion order. -/
def parse_table (table_oid : String) (walk_result : List (String × String)) :
    List (String × List (String × String)) :=
  walk_result.foldl (fun acc p =>
    let cid := column_id table_oid p.1
    let rid := row_id table_oid p.1
    let rowd := (dictGet? acc rid).getD []
    dictSet acc rid (dictSet rowd cid p.2)) []

/-! ## Table (lines 698-892) -/

/-- One entry of the `column_mapping` argument: `name`, `translator`
    (default `NullTranslator`) and `readback_after_write` (default `True`). -/
structure ColumnSpec where
  name : String
  translator : TranslatorT
  readback_after_write : Bool

/-- A row: ordered mapping column name → attribute (the source builds a
    per-row class whose class dict holds the `Attribute` descriptors). -/
def RowT : Type := List (String × Attribute)

/-- A table: base OID, ordered column mapping (column id → spec) and
    ordered row mapping (row key → row). -/
structure Table where
  oid : String
  column_mapping : List (String × ColumnSpec)
  rows : List (String × RowT)

/-- Build the `class_dict` for one row of a `Table.__init__` (lines 777-790):
    each triple is `(full_oid, raw_value, mapping)`; the attribute is created
    with `status=OK` and `value=translator.pyvalue(raw_value)` (which
    `Attribute.__init__` re-encodes through `translator.snmp`). -/
def buildClassDict (t : Transport) (triples : List (String × String × ColumnSpec)) :
    Except PyErr RowT :=
  triples.foldl (fun acc tr =>
    match acc with
    | .error e => .error e
    | .ok d =>
      match tr.2.2.translator.pyvalue (some tr.2.1) with
      | .error e => .error e
      | .ok v =>
        match Attribute.init (some t) tr.1 tr.2.2.translator v .OK
                tr.2.2.readback_after_write with
        | (.ok att, _) => .ok (dictSet d tr.2.2.name att)
        | (.error e, _) => .error e) (.ok [])

/-- The source's "little trick" (lines 794-799): re-insert the columns in
    declared `column_mapping` order, restricted to those present. -/
def reorderRow (cmap : List (String × ColumnSpec)) (row : RowT) : RowT :=
  cmap.foldl (fun acc c =>
    match dictGet? row c.2.name with
    | some a => dictSet acc c.2.name a
    | Option.none => acc) []

/-- `Table.__init__` (lines 740-806): walk (if no result was supplied),
    `parse_table`, filter to declared columns keeping
    `(full_oid, raw, mapping)` triples, drop empty rows, then build one row
    object per surviving row.  Warnings (empty walk / zero rows) are not
    errors and are not modelled. -/
def Table.init (transport : Transport) (table_oid : String)
    (column_mapping : List (String × ColumnSpec))
    (walk_result : List (String × String)) :
    Except PyErr Table × List TOp :=
  let wr := if walk_result.isEmpty then transport.walkFn table_oid else walk_result
  let ops0 : List TOp := if walk_result.isEmpty then [TOp.walk table_oid] else []
  let rawtable := parse_table table_oid wr
  let filtered : List (String × List (String × String × ColumnSpec)) :=
    (rawtable.map (fun rr =>
      (rr.1, rr.2.foldl (fun acc cv =>
        match dictGet? column_mapping cv.1 with
        | some spec => acc ++ [(table_oid ++ "." ++ cv.1 ++ "." ++ rr.1, cv.2, spec)]
        | Option.none => acc) []))).filter (fun rr => ¬ rr.2.isEmpty)
  let rows : Except PyErr (List (String × RowT)) :=
    filtered.foldl (fun acc rr =>
      match acc with
      | .error e => .error e
      | .ok rs =>
        match buildClassDict transport rr.2 with
        | .error e => .error e
        | .ok cd =>
          let row := reorderRow column_mapping cd
          if row.isEmpty then .ok rs else .ok (dictSet rs rr.1 row)) (.ok [])
  match rows with
  | .error e => (.error e, ops0)
  | .ok rs => (.ok ⟨table_oid, column_mapping, rs⟩, ops0)

/-- Python `repr` of a list of strings, for the `new_row` TypeError message. -/
def pyListRepr (names : List String) : String :=
  "[" ++ String.intercalate ", " (names.map (fun s => "'" ++ s ++ "'")) ++ "]"

/-- `Table.new_row` (lines 813-849): duplicate-key check, kwarg-name check,
    then one `Attribute` per supplied column in declared order, each created
    with `status=NEEDS_WRITE` (an immediate transport write), finally the row
    is registered.  Returns (result, post-state, operations). -/
def Table.new_row (t : Transport) (tbl : Table) (row_key : String)
    (kwargs : List (String × PyValue)) :
    Except PyErr RowT × Table × List TOp :=
  if dictContains tbl.rows row_key then
    (.error (.valueError ("Key '" ++ row_key ++ "' already exists in table")), tbl, [])
  else
    match kwargs.find?
        (fun kv => ¬ (tbl.column_mapping.map (fun c => c.2.name)).contains kv.1) with
    | some kv =>
      (.error (.typeError ("Invalid kwarg name '" ++ kv.1 ++ "' - expected one of "
                           ++ pyListRepr (tbl.column_mapping.map (fun c => c.2.name)))),
       tbl, [])
    | Option.none =>
      let built : Except PyErr RowT × List TOp :=
        tbl.column_mapping.foldl (fun acc c =>
          match acc with
          | (.error e, ops) => (.error e, ops)
          | (.ok d, ops) =>
            match dictGet? kwargs c.2.name with
            | some v =>
              match Attribute.init (some t) (tbl.oid ++ "." ++ c.1 ++ "." ++ row_key)
                      c.2.translator v AttributeStatus.NEEDS_WRITE
                      c.2.readback_after_write with
              | (.ok att, ops2) => (.ok (dictSet d c.2.name att), ops ++ ops2)
              | (.error e, ops2) => (.error e, ops ++ ops2)
            | Option.none => (.ok d, ops)) (.ok [], [])
      match built with
      | (.error e, ops) => (.error e, tbl, ops)
      | (.ok row, ops) => (.ok row, { tbl with rows := dictSet tbl.rows row_key row }, ops)

/-- The row-status branch of `Table.__delitem__`: run `hasattr` (the
    attribute's `__get__`, swallowing only `AttributeError`), then assign
    `RowStatus.DESTROY` (an `Attribute.__set__`, i.e. a verified transport
    write, whose exception aborts the deletion), then `dict.__delitem__`. -/
def Table.delitemStatus (t : Transport) (tbl : Table) (key : String) (row : RowT)
    (att : Attribute) : Except PyErr Unit × Table × List TOp :=
  match Attribute.get t att with
  | (.error (.attributeError _), _, ops1) =>
    -- hasattr(...) is False: no destroy write, still deleted
    (.ok (), { tbl with rows := dictRemove tbl.rows key }, ops1)
  | (.error e, att1, ops1) =>
    -- a non-AttributeError escapes hasattr; the row stays
    (.error e, { tbl with rows := dictSet tbl.rows key (dictSet row "rowstatus" att1) },
     ops1)
  | (.ok _, att1, ops1) =>
    match Attribute.set t att1 (.rowStatus .DESTROY) with
    | (.ok _, _, ops2) =>
      (.ok (), { tbl with rows := dictRemove tbl.rows key }, ops1 ++ ops2)
    | (.error e, att2, ops2) =>
      (.error e, { tbl with rows := dictSet tbl.rows key (dictSet row "rowstatus" att2) },
       ops1 ++ ops2)

/-- `Table.__delitem__` on a present row. -/
def Table.delitemRow (t : Transport) (tbl : Table) (key : String) (row : RowT) :
    Except PyErr Unit × Table × List TOp :=
  match dictGet? row "rowstatus" with
  | Option.none => (.ok (), { tbl with rows := dictRemove tbl.rows key }, [])
  | some att => Table.delitemStatus t tbl key row att

/-- `Table.__delitem__` (lines 889-892). -/
def Table.delitem (t : Transport) (tbl : Table) (key : String) :
    Except PyErr Unit × Table × List TOp :=
  match dictGet? tbl.rows key with
  | Option.none => (.error (.keyError key), tbl, [])
  | some row => Table.delitemRow t tbl key row

/-! ## Round-trip lemmas for the address/date codecs -/

theorem List.mk_string_ne_empty (c : Char) (l : List Char) : (⟨c :: l⟩ : String) ≠ "" := by
  intro h
  have h2 := congrArg String.data h
  simp at h2

theorem take_peel (a rest : List Char) (k : Nat) (ha : a.length = k) :
    (a ++ rest).take k = a := by
  rw [← ha]
  exact List.take_left a rest

theorem drop_peel (a rest : List Char) (k : Nat) (ha : a.length = k) :
    (a ++ rest).drop k = rest := by
  rw [← ha]
  exact List.drop_left a rest

theorem ipv4_digits (n : Nat) (hn : n < 4294967296) :
    (hexJoin (chunksBE 256 4 n)).length = 8 ∧
    allHexD (hexJoin (chunksBE 256 4 n)) = true ∧
    hexValList (hexJoin (chunksBE 256 4 n)) = n := by
  have hlt : ∀ w ∈ chunksBE 256 4 n, w < 256 := chunksBE_lt 256 (by omega) 4 n
  have hlen : ∀ w ∈ chunksBE 256 4 n, (fmtHex 2 w).length = 2 := by
    intro w hw
    refine fmtHex_length 2 w (by omega) ?_
    have h1 := hlt w hw
    have h2 : (16 : Nat) ^ 2 = 256 := by norm_num
    omega
  obtain ⟨hl, hv⟩ := hexJoin_spec 2 _ hlen
  refine ⟨?_, allHexD_hexJoin _, ?_⟩
  · rw [hl, chunksBE_length]
  · rw [hv]
    have h2 : (16 : Nat) ^ 2 = 256 := by norm_num
    rw [h2]
    refine valBE_chunksBE 256 (by omega) 4 n ?_
    have h3 : (256 : Nat) ^ 4 = 4294967296 := by norm_num
    omega

theorem ipv6_digits (n : Nat) (hn : n < 2 ^ 128)
    (hw : ∀ w ∈ chunksBE 65536 8 n, 4096 ≤ w) :
    (hexJoin (chunksBE 65536 8 n)).length = 32 ∧
    allHexD (hexJoin (chunksBE 65536 8 n)) = true ∧
    hexValList (hexJoin (chunksBE 65536 8 n)) = n := by
  have hlt : ∀ w ∈ chunksBE 65536 8 n, w < 65536 := chunksBE_lt 65536 (by omega) 8 n
  have hlen : ∀ w ∈ chunksBE 65536 8 n, (fmtHex 2 w).length = 4 := by
    intro w hww
    refine fmtHex_length_exact 2 4 w ?_ ?_ (by omega) (by omega)
    · have := hw w hww
      norm_num
      omega
    · have := hlt w hww
      norm_num
      omega
  obtain ⟨hl, hv⟩ := hexJoin_spec 4 _ hlen
  refine ⟨?_, allHexD_hexJoin _, ?_⟩
  · rw [hl, chunksBE_length]
  · rw [hv]
    have h2 : (16 : Nat) ^ 4 = 65536 := by norm_num
    rw [h2]
    refine valBE_chunksBE 65536 (by omega) 8 n ?_
    have h3 : (65536 : Nat) ^ 8 = 2 ^ 128 := by norm_num
    omega

theorem parseHex?_of_facts (d : List Char) (hne : d ≠ []) (hall : allHexD d = true) :
    parseHex? d = some (hexValList d) := by
  rw [parseHex?_eq]
  simp [hne, hall]

/-- IPv4 round trip on nonzero addresses. -/
theorem ipv4_roundtrip (n : Nat) (h0 : 0 < n) (hn : n < 4294967296) :
    IPv4Translator.snmp (.ip 4 n) = .ok ⟨'$' :: hexJoin (chunksBE 256 4 n)⟩ ∧
    IPv4Translator.pyvalue (some ⟨'$' :: hexJoin (chunksBE 256 4 n)⟩) = .ok (.ip 4 n) := by
  obtain ⟨hlen, hall, hval⟩ := ipv4_digits n hn
  have hne : hexJoin (chunksBE 256 4 n) ≠ [] := by
    intro h
    rw [h] at hlen
    simp at hlen
  constructor
  · simp [IPv4Translator.snmp]
  · simp only [IPv4Translator.pyvalue]
    rw [if_neg (List.mk_string_ne_empty _ _)]
    rw [if_neg (not_not_intro ⟨rfl, by
      show ('$' :: hexJoin (chunksBE 256 4 n)).length = 9
      simp [hlen]⟩)]
    rw [if_neg ?hzero]
    case hzero =>
      intro hcon
      have hz : hexValList (hexJoin (chunksBE 256 4 n)) = 0 :=
        hexValList_all_zero _ hcon.2
      omega
    rw [show ((⟨'$' :: hexJoin (chunksBE 256 4 n)⟩ : String)).data.drop 1
          = hexJoin (chunksBE 256 4 n) from rfl]
    rw [parseHex?_of_facts _ hne hall, hval]

/-- Mac address round trip on nonzero values. -/
theorem mac_roundtrip (n : Nat) (h0 : 0 < n) (hn : n < 281474976710656) :
    MacAddressTranslator.snmp (.mac n) = .ok ⟨'$' :: fmtHex 12 n⟩ ∧
    MacAddressTranslator.pyvalue (some ⟨'$' :: fmtHex 12 n⟩) = .ok (.mac n) := by
  have hlen : (fmtHex 12 n).length = 12 := by
    refine fmtHex_length 12 n (by omega) ?_
    have h16 : (16 : Nat) ^ 12 = 281474976710656 := by norm_num
    omega
  constructor
  · simp [MacAddressTranslator.snmp, pyIntOf]
  · simp only [MacAddressTranslator.pyvalue]
    rw [if_neg ?hnul]
    case hnul =>
      rintro (h | h)
      · exact List.mk_string_ne_empty _ _ h
      · have hd := congrArg String.data h
        have hz : ("$000000000000" : String).data = '$' :: List.replicate 12 '0' := by decide
        rw [hz] at hd
        simp only [List.cons.injEq] at hd
        have hzero : hexValList (fmtHex 12 n) = 0 := by
          rw [hd.2, hexValList_replicate_zero]
        rw [hexValList_fmtHex] at hzero
        omega
    rw [if_neg (not_not_intro ⟨rfl, by
      show ('$' :: fmtHex 12 n).length = 13
      simp [hlen]⟩)]
    rw [show ((⟨'$' :: fmtHex 12 n⟩ : String)).data.drop 1 = fmtHex 12 n from rfl]
    rw [parseHex?_of_facts _ (fmtHex_ne_nil 12 n) (allHexD_fmtHex 12 n), hexValList_fmtHex]

/-- IPv6 round trip, restricted to addresses whose eight 16-bit groups all
    need four hex digits (so that the `%02x` word formatting is actually
    4-digit fixed width). -/
theorem ipv6_roundtrip (n : Nat) (hn : n < 2 ^ 128)
    (hw : ∀ w ∈ chunksBE 65536 8 n, 4096 ≤ w) :
    IPv6Translator.snmp (.ip 6 n) = .ok ⟨'$' :: hexJoin (chunksBE 65536 8 n)⟩ ∧
    IPv6Translator.pyvalue (some ⟨'$' :: hexJoin (chunksBE 65536 8 n)⟩) = .ok (.ip 6 n) := by
  obtain ⟨hlen, hall, hval⟩ := ipv6_digits n hn hw
  have h0 : 0 < n := by
    rcases Nat.eq_zero_or_pos n with h | h
    · subst h
      have hmem : (0 : Nat) ∈ chunksBE 65536 8 0 := chunksBE_zero_mem 65536 8 (by omega)
      have := hw 0 hmem
      omega
    · exact h
  have hne : hexJoin (chunksBE 65536 8 n) ≠ [] := by
    intro h
    rw [h] at hlen
    simp at hlen
  constructor
  · simp [IPv6Translator.snmp]
  · simp only [IPv6Translator.pyvalue]
    rw [if_neg (List.mk_string_ne_empty _ _)]
    rw [if_neg (not_not_intro ⟨rfl, by
      show 8 < ('$' :: hexJoin (chunksBE 65536 8 n)).length
      simp [hlen], by
      show ('$' :: hexJoin (chunksBE 65536 8 n)).length ≤ 33
      simp [hlen]⟩)]
    rw [if_neg ?hzero]
    case hzero =>
      intro hcon
      have hz : hexValList (hexJoin (chunksBE 65536 8 n)) = 0 :=
        hexValList_all_zero _ hcon.2
      omega
    rw [show ((⟨'$' :: hexJoin (chunksBE 65536 8 n)⟩ : String)).data.drop 1
          = hexJoin (chunksBE 65536 8 n) from rfl]
    rw [parseHex?_of_facts _ hne hall, hval]
    have h128 : (2 : Nat) ^ 128 = 340282366920938463463374607431768211456 := by norm_num
    simp only []
    rw [if_pos (by omega)]

theorem daysInMonth_le (y m : Nat) : daysInMonth y m ≤ 31 := by
  rw [daysInMonth]
  split_ifs <;> omega

theorem pintHex_fmtHex (w n : Nat) : pintHex (fmtHex w n) = .ok n := by
  unfold pintHex
  rw [parseHex?_of_facts _ (fmtHex_ne_nil w n) (allHexD_fmtHex w n), hexValList_fmtHex]

theorem drop_peel2 (a rest : List Char) (j : Nat) :
    (a ++ rest).drop (a.length + j) = rest.drop j := by
  induction a with
  | nil => simp
  | cons c as ih =>
    simp only [List.cons_append, List.length_cons]
    rw [show as.length + 1 + j = (as.length + j) + 1 by omega]
    show (as ++ rest).drop (as.length + j) = rest.drop j
    exact ih

/-- DateTime round trip on every valid (second-resolution) datetime. -/
theorem datetime_roundtrip (y mo d h mi s : Nat) (hy1 : 1 ≤ y) (hy2 : y ≤ 9999)
    (hmo1 : 1 ≤ mo) (hmo2 : mo ≤ 12) (hd1 : 1 ≤ d) (hd2 : d ≤ daysInMonth y mo)
    (hh : h ≤ 23) (hmi : mi ≤ 59) (hs : s ≤ 59) :
    DateTimeTranslator.snmp (.date y mo d h mi s) =
      .ok ⟨'$' :: (fmtHex 4 y ++ (fmtHex 2 mo ++ (fmtHex 2 d ++ (fmtHex 2 h
                   ++ (fmtHex 2 mi ++ (fmtHex 2 s ++ ['0', '0']))))))⟩ ∧
    DateTimeTranslator.pyvalue
      (some ⟨'$' :: (fmtHex 4 y ++ (fmtHex 2 mo ++ (fmtHex 2 d ++ (fmtHex 2 h
                     ++ (fmtHex 2 mi ++ (fmtHex 2 s ++ ['0', '0']))))))⟩) =
      .ok (.date y mo d h mi s) := by
  have h256 : (16 : Nat) ^ 2 = 256 := by norm_num
  have hA : (fmtHex 4 y).length = 4 := by
    refine fmtHex_length 4 y (by omega) ?_
    have h65 : (16 : Nat) ^ 4 = 65536 := by norm_num
    omega
  have hB : (fmtHex 2 mo).length = 2 := fmtHex_length 2 mo (by omega) (by omega)
  have hC : (fmtHex 2 d).length = 2 := by
    refine fmtHex_length 2 d (by omega) ?_
    have := daysInMonth_le y mo
    omega
  have hD : (fmtHex 2 h).length = 2 := fmtHex_length 2 h (by omega) (by omega)
  have hE : (fmtHex 2 mi).length = 2 := fmtHex_length 2 mi (by omega) (by omega)
  have hF : (fmtHex 2 s).length = 2 := fmtHex_length 2 s (by omega) (by omega)
  have d4 : (fmtHex 4 y ++ (fmtHex 2 mo ++ (fmtHex 2 d ++ (fmtHex 2 h
             ++ (fmtHex 2 mi ++ (fmtHex 2 s ++ ['0', '0'])))))).drop 4
          = fmtHex 2 mo ++ (fmtHex 2 d ++ (fmtHex 2 h
             ++ (fmtHex 2 mi ++ (fmtHex 2 s ++ ['0', '0'])))) := drop_peel _ _ 4 hA
  have d6 : (fmtHex 4 y ++ (fmtHex 2 mo ++ (fmtHex 2 d ++ (fmtHex 2 h
             ++ (fmtHex 2 mi ++ (fmtHex 2 s ++ ['0', '0'])))))).drop 6
          = fmtHex 2 d ++ (fmtHex 2 h ++ (fmtHex 2 mi ++ (fmtHex 2 s ++ ['0', '0']))) := by
    rw [show (6 : Nat) = 4 + 2 from rfl, ← List.drop_drop, d4]
    exact drop_peel _ _ 2 hB
  have d8 : (fmtHex 4 y ++ (fmtHex 2 mo ++ (fmtHex 2 d ++ (fmtHex 2 h
             ++ (fmtHex 2 mi ++ (fmtHex 2 s ++ ['0', '0'])))))).drop 8
          = fmtHex 2 h ++ (fmtHex 2 mi ++ (fmtHex 2 s ++ ['0', '0'])) := by
    rw [show (8 : Nat) = 6 + 2 from rfl, ← List.drop_drop, d6]
    exact drop_peel _ _ 2 hC
  have d10 : (fmtHex 4 y ++ (fmtHex 2 mo ++ (fmtHex 2 d ++ (fmtHex 2 h
              ++ (fmtHex 2 mi ++ (fmtHex 2 s ++ ['0', '0'])))))).drop 10
           = fmtHex 2 mi ++ (fmtHex 2 s ++ ['0', '0']) := by
    rw [show (10 : Nat) = 8 + 2 from rfl, ← List.drop_drop, d8]
    exact drop_peel _ _ 2 hD
  have d12 : (fmtHex 4 y ++ (fmtHex 2 mo ++ (fmtHex 2 d ++ (fmtHex 2 h
              ++ (fmtHex 2 mi ++ (fmtHex 2 s ++ ['0', '0'])))))).drop 12
           = fmtHex 2 s ++ ['0', '0'] := by
    rw [show (12 : Nat) = 10 + 2 from rfl, ← List.drop_drop, d10]
    exact drop_peel _ _ 2 hE
  constructor
  · rw [DateTimeTranslator.snmp,
        if_neg (not_not_intro (show pyTruthy (.date y mo d h mi s) = true from rfl))]
  · show DateTimeTranslator.pyvalueS _ = _
    rw [DateTimeTranslator.pyvalueS]
    rw [if_neg ?hnul]
    case hnul =>
      rintro (hcon | hcon)
      · exact List.mk_string_ne_empty _ _ hcon
      · have hdata := congrArg String.data hcon
        have hz : ("$0000000000000000" : String).data = '$' :: List.replicate 16 '0' := by
          decide
        rw [hz] at hdata
        simp only [List.cons.injEq] at hdata
        have htake := congrArg (List.take 4) hdata.2
        rw [take_peel _ _ 4 hA, List.take_replicate] at htake
        have hyz : hexValList (fmtHex 4 y) = 0 := by
          rw [htake]
          have hmin : min 4 16 = 4 := by omega
          rw [hmin, hexValList_replicate_zero]
        rw [hexValList_fmtHex] at hyz
        omega
    rw [show ((⟨'$' :: (fmtHex 4 y ++ (fmtHex 2 mo ++ (fmtHex 2 d ++ (fmtHex 2 h
                ++ (fmtHex 2 mi ++ (fmtHex 2 s ++ ['0', '0']))))))⟩ : String)).data.drop 1
          = fmtHex 4 y ++ (fmtHex 2 mo ++ (fmtHex 2 d ++ (fmtHex 2 h
            ++ (fmtHex 2 mi ++ (fmtHex 2 s ++ ['0', '0']))))) from rfl,
        take_peel _ _ 4 hA, pintHex_fmtHex]
    rw [show ((⟨'$' :: (fmtHex 4 y ++ (fmtHex 2 mo ++ (fmtHex 2 d ++ (fmtHex 2 h
                ++ (fmtHex 2 mi ++ (fmtHex 2 s ++ ['0', '0']))))))⟩ : String)).data.drop 5
          = (fmtHex 4 y ++ (fmtHex 2 mo ++ (fmtHex 2 d ++ (fmtHex 2 h
            ++ (fmtHex 2 mi ++ (fmtHex 2 s ++ ['0', '0'])))))).drop 4 from rfl,
        d4, take_peel _ _ 2 hB, pintHex_fmtHex]
    rw [show ((⟨'$' :: (fmtHex 4 y ++ (fmtHex 2 mo ++ (fmtHex 2 d ++ (fmtHex 2 h
                ++ (fmtHex 2 mi ++ (fmtHex 2 s ++ ['0', '0']))))))⟩ : String)).data.drop 7
          = (fmtHex 4 y ++ (fmtHex 2 mo ++ (fmtHex 2 d ++ (fmtHex 2 h
            ++ (fmtHex 2 mi ++ (fmtHex 2 s ++ ['0', '0'])))))).drop 6 from rfl,
        d6, take_peel _ _ 2 hC, pintHex_fmtHex]
    rw [show ((⟨'$' :: (fmtHex 4 y ++ (fmtHex 2 mo ++ (fmtHex 2 d ++ (fmtHex 2 h
                ++ (fmtHex 2 mi ++ (fmtHex 2 s ++ ['0', '0']))))))⟩ : String)).data.drop 9
          = (fmtHex 4 y ++ (fmtHex 2 mo ++ (fmtHex 2 d ++ (fmtHex 2 h
            ++ (fmtHex 2 mi ++ (fmtHex 2 s ++ ['0', '0'])))))).drop 8 from rfl,
        d8, take_peel _ _ 2 hD, pintHex_fmtHex]
    rw [show ((⟨'$' :: (fmtHex 4 y ++ (fmtHex 2 mo ++ (fmtHex 2 d ++ (fmtHex 2 h
                ++ (fmtHex 2 mi ++ (fmtHex 2 s ++ ['0', '0']))))))⟩ : String)).data.drop 11
          = (fmtHex 4 y ++ (fmtHex 2 mo ++ (fmtHex 2 d ++ (fmtHex 2 h
            ++ (fmtHex 2 mi ++ (fmtHex 2 s ++ ['0', '0'])))))).drop 10 from rfl,
        d10, take_peel _ _ 2 hE, pintHex_fmtHex]
    rw [show ((⟨'$' :: (fmtHex 4 y ++ (fmtHex 2 mo ++ (fmtHex 2 d ++ (fmtHex 2 h
                ++ (fmtHex 2 mi ++ (fmtHex 2 s ++ ['0', '0']))))))⟩ : String)).data.drop 13
          = (fmtHex 4 y ++ (fmtHex 2 mo ++ (fmtHex 2 d ++ (fmtHex 2 h
            ++ (fmtHex 2 mi ++ (fmtHex 2 s ++ ['0', '0'])))))).drop 12 from rfl,
        d12, take_peel _ _ 2 hF, pintHex_fmtHex]
    show datetimeMk y mo d h mi s = .ok (.date y mo d h mi s)
    rw [datetimeMk, if_pos ⟨hy1, hy2, hmo1, hmo2, hd1, hd2, hh, hmi, hs⟩]

/-! ## Claim C1: codec round-trip law -/

/-- C1 counterexample: the IPv6 codec does not satisfy
    `decode(encode(value)) == value` on every IPv6 address.  The address
    `100::` (value `2^120`; its first 16-bit group `0x0100` formats to only
    three hex digits under `%02x`) encodes to `"$10000000000000000"`, which
    decodes to `::10:0:0:0` (value `2^64`), not the original address. -/
theorem c1_roundtrip_counterexample :
    IPv6Translator.snmp (.ip 6 (2 ^ 120)) = .ok "$10000000000000000" ∧
    IPv6Translator.pyvalue (some "$10000000000000000") = .ok (.ip 6 (2 ^ 64)) ∧
    PyValue.ip 6 (2 ^ 64) ≠ PyValue.ip 6 (2 ^ 120) := by
  refine ⟨by decide, by decide, by decide⟩

/-- C1 (amended): `decode(encode(v)) == v` holds for the IPv4 codec on every
    nonzero IPv4 address, for the MacAddress codec on every nonzero EUI, and
    for the DateTime codec on every valid second-resolution datetime; for the
    IPv6 codec it holds on the addresses all of whose eight 16-bit groups
    are at least `0x1000` (so that the `%02x` word formatting is 4-digit
    fixed width), but not on every IPv6 address. -/
theorem c1_roundtrip_amended :
    (∀ n : Nat, 0 < n → n < 4294967296 →
      IPv4Translator.snmp (.ip 4 n) = .ok ⟨'$' :: hexJoin (chunksBE 256 4 n)⟩ ∧
      IPv4Translator.pyvalue (some ⟨'$' :: hexJoin (chunksBE 256 4 n)⟩) = .ok (.ip 4 n)) ∧
    (∀ n : Nat, 0 < n → n < 281474976710656 →
      MacAddressTranslator.snmp (.mac n) = .ok ⟨'$' :: fmtHex 12 n⟩ ∧
      MacAddressTranslator.pyvalue (some ⟨'$' :: fmtHex 12 n⟩) = .ok (.mac n)) ∧
    (∀ y mo d h mi s : Nat, 1 ≤ y → y ≤ 9999 → 1 ≤ mo → mo ≤ 12 → 1 ≤ d →
      d ≤ daysInMonth y mo → h ≤ 23 → mi ≤ 59 → s ≤ 59 →
      DateTimeTranslator.snmp (.date y mo d h mi s) =
        .ok ⟨'$' :: (fmtHex 4 y ++ (fmtHex 2 mo ++ (fmtHex 2 d ++ (fmtHex 2 h
                     ++ (fmtHex 2 mi ++ (fmtHex 2 s ++ ['0', '0']))))))⟩ ∧
      DateTimeTranslator.pyvalue
        (some ⟨'$' :: (fmtHex 4 y ++ (fmtHex 2 mo ++ (fmtHex 2 d ++ (fmtHex 2 h
                       ++ (fmtHex 2 mi ++ (fmtHex 2 s ++ ['0', '0']))))))⟩) =
        .ok (.date y mo d h mi s)) ∧
    (∀ n : Nat, n < 2 ^ 128 → (∀ w ∈ chunksBE 65536 8 n, 4096 ≤ w) →
      IPv6Translator.snmp (.ip 6 n) = .ok ⟨'$' :: hexJoin (chunksBE 65536 8 n)⟩ ∧
      IPv6Translator.pyvalue (some ⟨'$' :: hexJoin (chunksBE 65536 8 n)⟩) = .ok (.ip 6 n)) :=
  ⟨ipv4_roundtrip, mac_roundtrip, datetime_roundtrip, ipv6_roundtrip⟩

/-- C1 witness: the amended round trips at `192.168.4.100`,
    `78:7b:8a:64:13:f5`, `2018-03-14T16:07:17` and
    `2001:1db8:1111:1111:1111:1111:1111:1111`. -/
theorem c1_roundtrip_amended_witness :
    (IPv4Translator.snmp (.ip 4 3232236644) =
       .ok ⟨'$' :: hexJoin (chunksBE 256 4 3232236644)⟩ ∧
     IPv4Translator.pyvalue (some ⟨'$' :: hexJoin (chunksBE 256 4 3232236644)⟩) =
       .ok (.ip 4 3232236644)) ∧
    (MacAddressTranslator.snmp (.mac 132471998125045) =
       .ok ⟨'$' :: fmtHex 12 132471998125045⟩ ∧
     MacAddressTranslator.pyvalue (some ⟨'$' :: fmtHex 12 132471998125045⟩) =
       .ok (.mac 132471998125045)) ∧
    (DateTimeTranslator.snmp (.date 2018 3 14 16 7 17) =
       .ok ⟨'$' :: (fmtHex 4 2018 ++ (fmtHex 2 3 ++ (fmtHex 2 14 ++ (fmtHex 2 16
                    ++ (fmtHex 2 7 ++ (fmtHex 2 17 ++ ['0', '0']))))))⟩ ∧
     DateTimeTranslator.pyvalue
       (some ⟨'$' :: (fmtHex 4 2018 ++ (fmtHex 2 3 ++ (fmtHex 2 14 ++ (fmtHex 2 16
                      ++ (fmtHex 2 7 ++ (fmtHex 2 17 ++ ['0', '0']))))))⟩) =
       .ok (.date 2018 3 14 16 7 17)) ∧
    (IPv6Translator.snmp (.ip 6 0x20011db8111111111111111111111111) =
       .ok ⟨'$' :: hexJoin (chunksBE 65536 8 0x20011db8111111111111111111111111)⟩ ∧
     IPv6Translator.pyvalue
       (some ⟨'$' :: hexJoin (chunksBE 65536 8 0x20011db8111111111111111111111111)⟩) =
       .ok (.ip 6 0x20011db8111111111111111111111111)) :=
  ⟨c1_roundtrip_amended.1 3232236644 (by decide) (by decide),
   c1_roundtrip_amended.2.1 132471998125045 (by decide) (by decide),
   c1_roundtrip_amended.2.2.1 2018 3 14 16 7 17 (by decide) (by decide) (by decide)
     (by decide) (by decide) (by decide) (by decide) (by decide) (by decide),
   c1_roundtrip_amended.2.2.2 0x20011db8111111111111111111111111 (by decide) (by decide)⟩

/-! ## Claim C4: empty raw string ↔ null -/

/-- C4 counterexample: the Boolean codec does *not* decode the empty raw
    string to null; `BoolTranslator.pyvalue("")` returns Python `False`
    (`"" == "1"` is `False`). -/
theorem c4_empty_null_counterexample :
    BoolTranslator.pyvalue (some "") = .ok (.bool false) ∧
    PyValue.bool false ≠ PyValue.none := by
  refine ⟨by decide, by decide⟩

/-- C4 (amended): every codec except the Enum-based codecs (RowStatus,
    IPVersion, IPProtocol) *and the Boolean codec* decodes the empty raw
    string to null and encodes null to its null raw representation
    (`""` for Null/Integer/Port, the all-zero payload for
    MacAddress/IPv4/IPv6/IPAddress/DateTime); the Boolean codec instead
    decodes `""` to `False` and encodes null to `"2"`. -/
theorem c4_empty_null_amended :
    (NullTranslator.pyvalue (some "") = .ok .none ∧ NullTranslator.snmp .none = .ok "") ∧
    (IntTranslator.pyvalue (some "") = .ok .none ∧ IntTranslator.snmp .none = .ok "") ∧
    (PortTranslatorT.pyvalue (some "") = .ok .none ∧ PortTranslatorT.snmp .none = .ok "") ∧
    (MacAddressTranslator.pyvalue (some "") = .ok .none ∧
     MacAddressTranslator.snmp .none = .ok "$000000000000") ∧
    (IPv4Translator.pyvalue (some "") = .ok .none ∧
     IPv4Translator.snmp .none = .ok "$00000000") ∧
    (IPv6Translator.pyvalue (some "") = .ok .none ∧
     IPv6Translator.snmp .none = .ok "$00000000000000000000000000000000") ∧
    (IPAddressTranslator.pyvalue (some "") = .ok .none ∧
     IPAddressTranslator.snmp .none = .ok "$00000000") ∧
    (DateTimeTranslator.pyvalue (some "") = .ok .none ∧
     DateTimeTranslator.snmp .none = .ok "$0000000000000000") ∧
    (BoolTranslator.pyvalue (some "") = .ok (.bool false) ∧
     BoolTranslator.snmp .none = .ok "2") := by
  refine ⟨⟨by decide, by decide⟩, ⟨by decide, by decide⟩, ⟨by decide, by decide⟩,
    ⟨by decide, by decide⟩, ⟨by decide, by decide⟩, ⟨by decide, by decide⟩,
    ⟨by decide, by decide⟩, ⟨by decide, by decide⟩, ⟨by decide, by decide⟩⟩

/-! ## Claim C5: decoding rejects malformed raw values with a typed error -/

/-- C5: the code contradicts the fail-fast decode contract in two places:
    `IPAddressTranslator.pyvalue` *returns* the `ValueError` object as its
    result (an `ok`-wrapped error value) instead of raising it, and
    `DateTimeTranslator.pyvalue` silently accepts a wrong-length raw value
    (trailing junk beyond the 16 hex digits is ignored). -/
theorem c5_malformed_decode_bug :
    IPAddressTranslator.pyvalue (some "nonsense") =
      .ok (.err (.valueError "nonsense is not an SNMP representation of an IP address!?")) ∧
    DateTimeTranslator.pyvalue (some "$07e2030e1007110000ff") =
      .ok (.date 2018 3 14 16 7 17) := by
  refine ⟨by decide, by decide⟩

/-! ## Claim C2: write verification -/

/-- C2: for every attribute with read-back verification enabled and every
    transport whose `get` returns a raw string different from the one just
    `set`, `write` fails with the "hub did not accept" `ValueError`
    (the `WriteNotAccepted` kind, carrying both values) after issuing
    exactly the set and the verifying get, and the attribute state
    (cached value *and* status) is exactly the pre-call state. -/
theorem c2_write_verification (a : RawAttribute) (t : Transport) (v : Option String)
    (hrb : a.readback_after_write = true) (hget : t.getFn a.oid ≠ pystrOpt v) :
    RawAttribute.write t a v =
      (.error (.valueError ("hub did not accept a value of '" ++ pystrOpt v ++ "' for "
                            ++ a.oid ++ ": It read back as '" ++ t.getFn a.oid ++ "'!?")),
       a, [TOp.set a.oid v a.datatype, TOp.get a.oid]) := by
  unfold RawAttribute.write
  simp only [hrb, if_true]
  rw [if_pos hget]

def c2T : Transport := ⟨fun _ => "x", fun _ => []⟩
def c2A : RawAttribute := ⟨"1.2.3", DataType.INT, AttributeStatus.OK, some "old", true⟩

/-- C2 witness: a concrete failed verified write leaves the attribute as it
    was. -/
theorem c2_write_verification_witness :
    RawAttribute.write c2T c2A (some "5") =
      (.error (.valueError ("hub did not accept a value of '" ++ pystrOpt (some "5")
                            ++ "' for " ++ "1.2.3" ++ ": It read back as '" ++ "x" ++ "'!?")),
       c2A, [TOp.set "1.2.3" (some "5") DataType.INT, TOp.get "1.2.3"]) :=
  c2_write_verification c2A c2T (some "5") rfl (by decide)

/-! ## Claim C6: cache semantics of read -/

/-- C6: an attribute created in the `NEEDS_READ` state, read twice, issues
    exactly one transport get: the first read fetches the raw value, decodes
    it, transitions to `OK` and caches it; the second read returns the
    identical value with no transport operation and no state change. -/
theorem c6_cached_read (t : Transport) (a : Attribute) (pv : PyValue)
    (hst : a.raw.status = .NEEDS_READ)
    (hdec : a.translator.pyvalue (some (t.getFn a.raw.oid)) = .ok pv) :
    ∃ a' : Attribute,
      Attribute.get t a = (.ok pv, a', [TOp.get a.raw.oid]) ∧
      a'.raw.status = .OK ∧
      a'.raw.value = some (t.getFn a.raw.oid) ∧
      Attribute.get t a' = (.ok pv, a', []) := by
  obtain ⟨⟨oid, dt, st, val, rb⟩, tr⟩ := a
  simp only at hst hdec
  subst hst
  refine ⟨⟨⟨oid, dt, .OK, some (t.getFn oid), rb⟩, tr⟩, ?_, rfl, rfl, ?_⟩
  · simp only [Attribute.get, RawAttribute.get, RawAttribute.reread]
    rw [hdec]
  · simp only [Attribute.get, RawAttribute.get]
    rw [hdec]

def c6T : Transport := ⟨fun _ => "42", fun _ => []⟩
def c6A : Attribute :=
  ⟨⟨"1.2.4", DataType.INT, AttributeStatus.NEEDS_READ, Option.none, true⟩, IntTranslatorT⟩

/-- C6 witness: a concrete lazy attribute read twice issues one get. -/
theorem c6_cached_read_witness :
    ∃ a' : Attribute,
      Attribute.get c6T c6A = (.ok (.int 42), a', [TOp.get "1.2.4"]) ∧
      a'.raw.status = .OK ∧
      a'.raw.value = some "42" ∧
      Attribute.get c6T a' = (.ok (.int 42), a', []) :=
  c6_cached_read c6T c6A (.int 42) rfl (by decide)

/-! ## Claim C10: UNSET and NEEDS_WRITE are the same member -/

/-- Behaviour of `RawAttribute.write` needed below: it always leads with the
    transport set, and it ends in `OK` exactly on success (otherwise the
    state is untouched). -/
theorem RawAttribute.write_spec (t : Transport) (a : RawAttribute) (v : Option String) :
    ((RawAttribute.write t a v).2.2).head? = some (TOp.set a.oid v a.datatype) ∧
    ((RawAttribute.write t a v).2.1 = a ∨
      (RawAttribute.write t a v).2.1 = { a with value := v, status := .OK }) ∧
    (∀ u, (RawAttribute.write t a v).1 = .ok u →
      (RawAttribute.write t a v).2.1 = { a with value := v, status := .OK }) := by
  unfold RawAttribute.write
  by_cases hrb : a.readback_after_write = true
  · simp only [hrb, if_true]
    by_cases hg : t.getFn a.oid ≠ pystrOpt v
    · rw [if_pos hg]
      exact ⟨rfl, Or.inl rfl, fun u h => by simp at h⟩
    · rw [if_neg hg]
      exact ⟨rfl, Or.inr rfl, fun u _ => rfl⟩
  · have hrb' : a.readback_after_write = false := by
      revert hrb
      cases a.readback_after_write <;> simp
    rw [hrb', if_neg Bool.false_ne_true]
    exact ⟨rfl, Or.inr rfl, fun u _ => rfl⟩

/-- C10: `AttributeStatus.NEEDS_WRITE` and `AttributeStatus.UNSET` are the
    same enumeration member (both declared with value 2), so constructing an
    attribute in the `UNSET` state behaves exactly like `NEEDS_WRITE`: it
    raises `TypeError` without an instance, and with one it immediately
    issues the transport set and, on success, ends in `OK`.  Consequently
    every successfully constructed attribute has status `OK` or
    `NEEDS_READ`, reads and writes preserve that, and the
    `AttributeError` branch of `__get__` (the `AttributeNotYetSet` error)
    is unreachable: reads of such attributes always return `ok`. -/
theorem c10_unset_alias :
    (AttributeStatus.NEEDS_WRITE = AttributeStatus.UNSET) ∧
    (∀ oid dt v rb, RawAttribute.init Option.none oid dt AttributeStatus.UNSET v rb =
      (.error (.typeError
         "When creating attributes with NEEDS_WRITE, instance value is mandatory"), [])) ∧
    (∀ t oid dt v rb,
      (RawAttribute.init (some t) oid dt AttributeStatus.UNSET v rb).2.head? =
        some (TOp.set oid v dt) ∧
      (∀ a', (RawAttribute.init (some t) oid dt AttributeStatus.UNSET v rb).1 = .ok a' →
        a'.status = .OK)) ∧
    (∀ t? oid dt st v rb a', (RawAttribute.init t? oid dt st v rb).1 = .ok a' →
      a'.status ≠ .UNSET) ∧
    (∀ t a v, a.status ≠ .UNSET →
      (RawAttribute.get t a).2.1.status ≠ .UNSET ∧
      (RawAttribute.write t a v).2.1.status ≠ .UNSET) ∧
    (∀ t a, a.status ≠ .UNSET → ∃ r, (RawAttribute.get t a).1 = .ok r) := by
  have hinit : ∀ (t : Transport) oid dt v rb,
      (RawAttribute.init (some t) oid dt AttributeStatus.UNSET v rb).2.head? =
        some (TOp.set oid v dt) ∧
      (∀ a', (RawAttribute.init (some t) oid dt AttributeStatus.UNSET v rb).1 = .ok a' →
        a'.status = .OK) := by
    intro t oid dt v rb
    obtain ⟨hhead, _, hok⟩ :=
      RawAttribute.write_spec t ⟨oid, dt, AttributeStatus.UNSET, v, rb⟩ v
    rcases hw : RawAttribute.write t ⟨oid, dt, AttributeStatus.UNSET, v, rb⟩ v
      with ⟨r, a', ops⟩
    rw [hw] at hhead hok
    constructor
    · show ((match RawAttribute.write t ⟨oid, dt, AttributeStatus.UNSET, v, rb⟩ v with
             | (.ok _, a', ops) => ((.ok a' : Except PyErr RawAttribute), ops)
             | (.error e, _, ops) => (.error e, ops)).2).head? = some (TOp.set oid v dt)
      rw [hw]
      cases r with
      | ok u => exact hhead
      | error e => exact hhead
    · intro a'' h
      have h2 : (match RawAttribute.write t ⟨oid, dt, AttributeStatus.UNSET, v, rb⟩ v with
                 | (.ok _, a', ops) => ((.ok a' : Except PyErr RawAttribute), ops)
                 | (.error e, _, ops) => (.error e, ops)).1 = .ok a'' := h
      rw [hw] at h2
      cases r with
      | ok u =>
        simp only [Except.ok.injEq] at h2
        subst h2
        have h3 := hok u rfl
        simp only [] at h3
        rw [h3]
      | error e => simp at h2
  refine ⟨rfl, fun oid dt v rb => rfl, hinit, ?_, ?_, ?_⟩
  · intro t? oid dt st v rb a' h
    cases st with
    | OK =>
      have h2 : a' = ⟨oid, dt, AttributeStatus.OK, v, rb⟩ := by
        simpa [RawAttribute.init] using h.symm
      subst h2
      simp
    | NEEDS_READ =>
      have h2 : a' = ⟨oid, dt, AttributeStatus.NEEDS_READ, v, rb⟩ := by
        simpa [RawAttribute.init] using h.symm
      subst h2
      simp
    | UNSET =>
      cases t? with
      | none => simp [RawAttribute.init] at h
      | some t =>
        have hst := (hinit t oid dt v rb).2 a' h
        rw [hst]
        simp
  · intro t a v ha
    constructor
    · rw [RawAttribute.get]
      cases hst : a.status with
      | OK => simpa [hst] using ha
      | UNSET => exact absurd hst ha
      | NEEDS_READ => simp [RawAttribute.reread]
    · obtain ⟨_, hcase, _⟩ := RawAttribute.write_spec t a v
      rcases hcase with hcase | hcase
      · rw [hcase]
        exact ha
      · rw [hcase]
        simp
  · intro t a ha
    rw [RawAttribute.get]
    cases hst : a.status with
    | OK => exact ⟨a.value, rfl⟩
    | UNSET => exact absurd hst ha
    | NEEDS_READ => exact ⟨_, rfl⟩

/-- C10 witness: the alias behaviour at a concrete attribute construction
    and a concrete read. -/
theorem c10_unset_alias_witness :
    (RawAttribute.init Option.none "1.9" DataType.INT AttributeStatus.UNSET (some "1") true =
      (.error (.typeError
         "When creating attributes with NEEDS_WRITE, instance value is mandatory"), [])) ∧
    ((RawAttribute.init (some c6T) "1.9" DataType.INT AttributeStatus.UNSET (some "1")
        false).2.head? = some (TOp.set "1.9" (some "1") DataType.INT)) ∧
    (∃ r, (RawAttribute.get c6T c2A).1 = .ok r) :=
  ⟨c10_unset_alias.2.1 "1.9" DataType.INT (some "1") true,
   (c10_unset_alias.2.2.1 c6T "1.9" DataType.INT (some "1") false).1,
   c10_unset_alias.2.2.2.2.2 c6T c2A (by decide)⟩

/-! ## Claim C3: table reconstruction -/

/-- A transport whose reads return `""` and whose walks are empty (the table
    claims below always supply an explicit walk result). -/
def tNull : Transport := ⟨fun _ => "", fun _ => []⟩

def c3cmap : List (String × ColumnSpec) :=
  [("1", ⟨"port_number", IntTranslatorT, true⟩), ("2", ⟨"address", IPv4TranslatorT, true⟩)]

/-- The walk result exactly as written in the claim. -/
def c3walkLiteral : List (String × String) :=
  [("1.3.10", "5"), ("2.3.10", "$c0a80464"), ("1.3.20", "7")]

/-- The walk result the claim *describes* (rows 10 and 20 under columns 1
    and 2), laid out as the code actually decomposes OIDs:
    `table_oid.column.row`. -/
def c3walkStructured : List (String × String) :=
  [("1.3.1.10", "5"), ("1.3.2.10", "$c0a80464"), ("1.3.1.20", "7")]

/-- Decoded value of column `cn` of row `rk`, read through the attribute. -/
def rowAttrVal (t : Transport) (T : Table) (rk cn : String) :
    Option (Except PyErr PyValue) :=
  (dictGet? T.rows rk).bind fun r => (dictGet? r cn).map fun a => (Attribute.get t a).1

/-- C3 counterexample: on the claim's literal walk result
    `{"1.3.10": "5", "2.3.10": "$c0a80464", "1.3.20": "7"}` with base OID
    `"1.3"`, `oid[len("1.3")+1:]` leaves `"10"`/`"20"`, so every entry gets
    column id `"10"` or `"20"` — neither declared — and the resulting table
    has *zero* rows, not two. -/
theorem c3_table_counterexample :
    ∃ T, Table.init tNull "1.3" c3cmap c3walkLiteral = (.ok T, []) ∧
      T.rows.map Prod.fst = [] ∧
      T.rows.map Prod.fst ≠ ["10", "20"] := by
  refine ⟨_, rfl, by decide, by decide⟩

/-- C3 (amended): with the walk result laid out as the code decomposes OIDs
    (`table_oid.column.row`, i.e. `{"1.3.1.10": "5", "1.3.2.10":
    "$c0a80464", "1.3.1.20": "7"}`), the table has exactly rows `"10"` and
    `"20"`; row `"10"` has `port_number == 5` and
    `address == 192.168.4.100`, row `"20"` has only `port_number == 7`. -/
theorem c3_table_amended :
    ∃ T, Table.init tNull "1.3" c3cmap c3walkStructured = (.ok T, []) ∧
      T.rows.map Prod.fst = ["10", "20"] ∧
      T.rows.map (fun r => (r.1, r.2.map Prod.fst)) =
        [("10", ["port_number", "address"]), ("20", ["port_number"])] ∧
      rowAttrVal tNull T "10" "port_number" = some (.ok (.int 5)) ∧
      rowAttrVal tNull T "10" "address" = some (.ok (.ip 4 3232236644)) ∧
      rowAttrVal tNull T "20" "port_number" = some (.ok (.int 7)) ∧
      rowAttrVal tNull T "20" "address" = Option.none := by
  refine ⟨_, rfl, by decide, by decide, by decide, by decide, by decide, by decide⟩

/-! ## Claim C9: decomposition slices by position, no prefix check -/

/-- `str.startswith` (character-list based, kernel-computable). -/
def strStarts (pre s : String) : Bool :=
  s.data.take pre.data.length == pre.data

/-- C9: `parse_table` strips the base OID by character position alone and
    never checks the prefix: every single-entry walk result contributes a
    column/row pair obtained by slicing at `len(table_oid) + 1`, even when
    the OID does not start with the base OID; concretely, the foreign OID
    `"9.9.1.10"` under base `"1.3"` still populates declared column `"1"`
    of row `"10"` in the reconstructed table. -/
theorem c9_position_slicing :
    (∀ table_oid oid raw : String, strStarts table_oid oid = false →
      parse_table table_oid [(oid, raw)] =
        [(row_id table_oid oid, [(column_id table_oid oid, raw)])]) ∧
    (strStarts "1.3" "9.9.1.10" = false ∧
     ∃ T, Table.init tNull "1.3" c3cmap [("9.9.1.10", "5")] = (.ok T, []) ∧
       T.rows.map Prod.fst = ["10"] ∧
       rowAttrVal tNull T "10" "port_number" = some (.ok (.int 5))) := by
  refine ⟨fun table_oid oid raw _ => rfl, by decide, ?_⟩
  refine ⟨_, rfl, by decide, by decide⟩

/-- C9 witness: the general slicing fact applied to the foreign OID. -/
theorem c9_position_slicing_witness :
    parse_table "1.3" [("9.9.1.10", "5")] =
      [(row_id "1.3" "9.9.1.10", [(column_id "1.3" "9.9.1.10", "5")])] :=
  c9_position_slicing.1 "1.3" "9.9.1.10" "5" (by decide)

/-! ## Claim C7: new_row error cases -/

/-- C7: `new_row` with an existing key fails with the duplicate-key
    `ValueError` leaving the row mapping untouched and issuing no transport
    operation; with a fresh key but a keyword argument naming an undeclared
    column it fails with the invalid-kwarg `TypeError`, again before any
    transport write and with the table unmodified. -/
theorem c7_new_row_errors (t : Transport) (tbl : Table) (row_key : String)
    (kwargs : List (String × PyValue)) :
    (dictContains tbl.rows row_key = true →
      Table.new_row t tbl row_key kwargs =
        (.error (.valueError ("Key '" ++ row_key ++ "' already exists in table")),
         tbl, [])) ∧
    (∀ kv, dictContains tbl.rows row_key = false →
      kwargs.find?
        (fun kv => ¬ (tbl.column_mapping.map (fun c => c.2.name)).contains kv.1) = some kv →
      Table.new_row t tbl row_key kwargs =
        (.error (.typeError ("Invalid kwarg name '" ++ kv.1 ++ "' - expected one of "
                 ++ pyListRepr (tbl.column_mapping.map (fun c => c.2.name)))),
         tbl, [])) := by
  constructor
  · intro h
    unfold Table.new_row
    rw [if_pos h]
  · intro kv h hfind
    unfold Table.new_row
    rw [if_neg (by rw [h]; exact Bool.false_ne_true), hfind]

def c7tbl : Table :=
  ⟨"1.3", [("1", ⟨"port_number", IntTranslatorT, true⟩)], [("10", [])]⟩

/-- C7 witness: both failure modes at a concrete table. -/
theorem c7_new_row_errors_witness :
    (Table.new_row tNull c7tbl "10" [] =
      (.error (.valueError ("Key '" ++ "10" ++ "' already exists in table")),
       c7tbl, [])) ∧
    (Table.new_row tNull c7tbl "20" [("bogus", .int 1)] =
      (.error (.typeError ("Invalid kwarg name '" ++ "bogus" ++ "' - expected one of "
               ++ pyListRepr (c7tbl.column_mapping.map (fun c => c.2.name)))),
       c7tbl, [])) :=
  ⟨(c7_new_row_errors tNull c7tbl "10" []).1 rfl,
   (c7_new_row_errors tNull c7tbl "20" [("bogus", .int 1)]).2 ("bogus", .int 1) rfl rfl⟩

/-! ## Claim C8: row removal -/

def c8att : Attribute :=
  ⟨⟨"1.3.3.10", DataType.INT, AttributeStatus.OK, some "1", true⟩, RowStatusTranslatorT⟩

def c8tbl : Table :=
  ⟨"1.3", [("3", ⟨"rowstatus", RowStatusTranslatorT, true⟩)],
   [("10", [("rowstatus", c8att)])]⟩

def c8T : Transport := ⟨fun _ => "1", fun _ => []⟩

/-- C8 counterexample: deleting a row whose row-status destroy-write fails
    read-back verification raises the write's `ValueError` and the row is
    *not* removed from the table — the removal is not performed "regardless
    of the outcome of that status write". -/
theorem c8_row_removal_counterexample :
    (Table.delitem c8T c8tbl "10").1 =
      .error (.valueError
        "hub did not accept a value of '6' for 1.3.3.10: It read back as '1'!?") ∧
    (Table.delitem c8T c8tbl "10").2.1.rows.map Prod.fst = ["10"] ∧
    (Table.delitem c8T c8tbl "10").2.2 =
      [TOp.set "1.3.3.10" (some "6") DataType.INT, TOp.get "1.3.3.10"] := by
  refine ⟨by decide, by decide, by decide⟩

/-- C8 (amended): deleting a present row without a `rowstatus` attribute
    removes it with no transport operation; deleting a row whose `rowstatus`
    attribute is cached (`OK`), decodable, and whose destroy-write is
    accepted by the transport (read-back returns the written `"6"`) first
    issues the destroy set (and its verifying get) and then removes the row.
    If the destroy-write raises, however, the row stays (see the
    counterexample). -/
theorem c8_row_removal_amended (t : Transport) (tbl : Table) (key : String) (row : RowT) :
    (dictGet? tbl.rows key = some row → dictGet? row "rowstatus" = Option.none →
      Table.delitem t tbl key = (.ok (), { tbl with rows := dictRemove tbl.rows key }, [])) ∧
    (∀ att : Attribute, ∀ pv : PyValue,
      dictGet? tbl.rows key = some row → dictGet? row "rowstatus" = some att →
      att.raw.status = .OK →
      att.translator.pyvalue att.raw.value = .ok pv →
      att.translator.snmp (.rowStatus .DESTROY) = .ok "6" →
      att.raw.readback_after_write = true →
      t.getFn att.raw.oid = "6" →
      Table.delitem t tbl key =
        (.ok (), { tbl with rows := dictRemove tbl.rows key },
         [TOp.set att.raw.oid (some "6") att.raw.datatype, TOp.get att.raw.oid])) := by
  constructor
  · intro hrow hno
    unfold Table.delitem
    rw [hrow]
    show Table.delitemRow t tbl key row = _
    unfold Table.delitemRow
    rw [hno]
  · intro att pv hrow hatt hst hdec henc hrb hget
    unfold Table.delitem
    rw [hrow]
    show Table.delitemRow t tbl key row = _
    unfold Table.delitemRow
    rw [hatt]
    show Table.delitemStatus t tbl key row att = _
    unfold Table.delitemStatus
    have hget1 : Attribute.get t att = (.ok pv, att, []) := by
      obtain ⟨⟨oid, dt, st, val, rb⟩, tr⟩ := att
      simp only at hst hdec
      subst hst
      simp only [Attribute.get, RawAttribute.get]
      rw [hdec]
    rw [hget1]
    have hset : Attribute.set t att (.rowStatus .DESTROY) =
        (.ok (), ⟨{ att.raw with value := some "6", status := .OK }, att.translator⟩,
         [TOp.set att.raw.oid (some "6") att.raw.datatype, TOp.get att.raw.oid]) := by
      simp only [Attribute.set]
      rw [henc]
      simp only [RawAttribute.write, hrb, if_true, hget]
      rw [if_neg (by simp [pystrOpt])]
    show (match Attribute.set t att (PyValue.rowStatus RowStatusE.DESTROY) with
          | (.ok _, _, ops2) =>
            ((.ok () : Except PyErr Unit),
             { tbl with rows := dictRemove tbl.rows key }, ([] : List TOp) ++ ops2)
          | (.error e, att2, ops2) =>
            (.error e,
             { tbl with rows := dictSet tbl.rows key (dictSet row "rowstatus" att2) },
             ([] : List TOp) ++ ops2)) = _
    rw [hset]
    rfl

def c8tblB : Table := ⟨"1.3", [], [("10", [])]⟩

def c8Tok : Transport := ⟨fun _ => "6", fun _ => []⟩

/-- C8 witness: removal without a rowstatus attribute (no transport
    operation), and removal with an accepted destroy-write. -/
theorem c8_row_removal_amended_witness :
    (Table.delitem tNull c8tblB "10" =
      (.ok (), { c8tblB with rows := dictRemove c8tblB.rows "10" }, [])) ∧
    (Table.delitem c8Tok c8tbl "10" =
      (.ok (), { c8tbl with rows := dictRemove c8tbl.rows "10" },
       [TOp.set c8att.raw.oid (some "6") c8att.raw.datatype, TOp.get c8att.raw.oid])) :=
  ⟨(c8_row_removal_amended tNull c8tblB "10" []).1 rfl rfl,
   (c8_row_removal_amended c8Tok c8tbl "10" [("rowstatus", c8att)]).2 c8att
     (.rowStatus .ACTIVE) rfl rfl rfl (by decide) (by decide) rfl rfl⟩
